import Mathlib

/-!
# Verification of the MapReduce weather-analysis engine

Shallow embedding of the three map/combine/reduce pipelines of the
repository (temperature by climate zone, precipitation by country,
extreme-weather by location), translated from
`src/mapreduce/temperature_analysis_job.py`,
`src/mapreduce/precipitation_analysis_job.py` and
`src/mapreduce/extreme_weather_job.py`.

Modelling conventions:
* Python floats are modelled as `ℚ`.  Every constant appearing in the
  programs and in the checked scenarios is exactly representable, and
  `statistics.stdev` is modelled by a rational square root that is exact
  on perfect squares (all standard deviations evaluated by a theorem
  below are perfect squares).
* Python `round(x, 2)` is modelled as `round (100 * x) / 100`; the two
  functions agree away from exact half-way ties, and no value considered
  here is a tie.
* A raw JSON field is `absent` (key missing / `null`), `malformed`
  (present but `float()` raises), or `val q`.
* Python sets are modelled as first-occurrence deduplicated lists,
  Python `dict`s (which preserve insertion order) as association lists
  in insertion order.
* An mrjob reducer receives, for one key, a mix of raw mapper values and
  combiner outputs; this is the `Delivery` type.  A `SplitItem` list
  describes how the key's value stream was partitioned between values
  sent raw and batches sent through the combiner.
-/

/-- Truthiness of an optional string field, as used by Python's
`all([...])` validation (missing and empty string are falsy). -/
def strTruthy : Option String → Bool
  | none => false
  | some s => !(s == "")

/-- A numeric JSON field: missing, present but failing `float()`
coercion, or a numeric value. -/
inductive NumField
  | absent
  | malformed
  | val (q : ℚ)
deriving DecidableEq, Repr

/-- One raw input observation, with the fields read by the three
mappers.  Fields are optional exactly as `record.get(...)` is. -/
structure RawRecord where
  location_key : Option String
  climate_zone : Option String
  country : Option String
  date : Option String
  temperature_2m_max : NumField
  temperature_2m_min : NumField
  temperature_2m_mean : NumField
  precipitation_sum : NumField
  windspeed_10m_max : NumField
  humidity_2m_max : NumField
deriving DecidableEq, Repr

/-- Python `s.split('-')` on the character list of `s` (structural, so
that the kernel can evaluate it; `''.split('-') == ['']`). -/
def splitDash : List Char → List (List Char)
  | [] => [[]]
  | c :: rest =>
    match splitDash rest with
    | [] => [[c]]
    | h :: t => if c = '-' then [] :: h :: t else (c :: h) :: t

/-- Decimal digit run parser, the core of Python `int(s)`. -/
def parseDigits : List Char → Option ℕ
  | [] => none
  | cs => cs.foldl (fun acc? c =>
      match acc? with
      | none => none
      | some acc =>
        if '0' ≤ c ∧ c ≤ '9' then some (acc * 10 + (c.toNat - '0'.toNat)) else none)
      (some 0)

/-- Python `int(s)` on the strings occurring in date fields: an optional
sign followed by decimal digits (exotic forms such as embedded
whitespace or underscores are not modelled; no date in any theorem
below uses them). -/
def parseIntChars : List Char → Option ℤ
  | '-' :: cs => (parseDigits cs).map fun n => -(n : ℤ)
  | cs => (parseDigits cs).map fun n => (n : ℤ)

/-- `int(date.split('-')[1])` of the temperature mapper: `none` when the
indexing or the conversion raises. -/
def monthOfDate? (date : String) : Option ℤ :=
  match (splitDash date.data).get? 1 with
  | some cs => parseIntChars cs
  | none => none

/-- `year, month, day = date.split('-'); int(year), int(month)` of the
precipitation mapper: requires exactly three `-`-separated parts
(otherwise the unpacking raises) and integer year and month (the day
part is never converted). -/
def yearMonthOfDate? (date : String) : Option (ℤ × ℤ) :=
  match splitDash date.data with
  | [y, m, _] =>
    match parseIntChars y, parseIntChars m with
    | some yi, some mi => some (yi, mi)
    | _, _ => none
  | _ => none

/-- The four seasons of `_get_season`. -/
inductive Season
  | winter | spring | summer | autumn
deriving DecidableEq, Repr

def Season.str : Season → String
  | .winter => "winter"
  | .spring => "spring"
  | .summer => "summer"
  | .autumn => "autumn"

/-- `_get_season` (identical in both jobs that define it): months 12,1,2
winter; 3,4,5 spring; 6,7,8 summer; anything else autumn. -/
def getSeason (m : ℤ) : Season :=
  if m = 12 ∨ m = 1 ∨ m = 2 then .winter
  else if m = 3 ∨ m = 4 ∨ m = 5 then .spring
  else if m = 6 ∨ m = 7 ∨ m = 8 then .summer
  else .autumn

/-- `statistics.mean` (callers guard non-emptiness; on `[]` this yields
`0` by rational division by zero). -/
def listMean (xs : List ℚ) : ℚ := xs.sum / xs.length

/-- Python `max` on a non-empty list. -/
def listMax : List ℚ → ℚ
  | [] => 0
  | x :: xs => xs.foldl max x

/-- Python `min` on a non-empty list. -/
def listMin : List ℚ → ℚ
  | [] => 0
  | x :: xs => xs.foldl min x

/-- Python `sorted` on rationals. -/
def sortQ (xs : List ℚ) : List ℚ := xs.mergeSort (fun a b => decide (a ≤ b))

/-- `statistics.median`: middle element, or mean of the two middle
elements, of the sorted list. -/
def medianQ (xs : List ℚ) : ℚ :=
  let s := sortQ xs
  let n := s.length
  if n % 2 = 1 then s.getD (n / 2) 0
  else (s.getD (n / 2 - 1) 0 + s.getD (n / 2) 0) / 2

/-- Sample variance (denominator `n - 1`), the square of
`statistics.stdev`. -/
def sampleVar (xs : List ℚ) : ℚ :=
  let m := listMean xs
  ((xs.map fun x => (x - m) ^ 2).sum) / ((xs.length : ℚ) - 1)

/-- Rational square root, exact on perfect squares; models the float
square root inside `statistics.stdev` (every stdev a theorem below
evaluates is a perfect square). -/
def sqrtQ (q : ℚ) : ℚ := mkRat (Int.sqrt q.num) (Nat.sqrt q.den)

/-- `statistics.stdev`. -/
def stdevQ (xs : List ℚ) : ℚ := sqrtQ (sampleVar xs)

/-- Python `round(x, 2)` (half-up on the rational model; no value used
in a theorem below is an exact tie, where float banker's rounding could
differ). -/
def round2 (x : ℚ) : ℚ := (round (100 * x) : ℤ) / 100

/-- Add to a Python `set` modelled as a first-occurrence list. -/
def insertUniq [DecidableEq α] (l : List α) (a : α) : List α :=
  if a ∈ l then l else l ++ [a]

/-- `set.update` / union, keeping first-occurrence order. -/
def unionUniq [DecidableEq α] (l m : List α) : List α :=
  m.foldl insertUniq l

/-- One value delivered to a reducer for a key: either a raw mapper
value or a combiner partial aggregate (the source distinguishes the two
with an `is_partial` marker field in the JSON). -/
inductive Delivery (V A : Type)
  | raw (v : V)
  | agg (a : A)
deriving DecidableEq, Repr

/-- How one slice of a key's value stream reaches the reducer: as a
single raw value, or as a batch routed through the combiner. -/
inductive SplitItem (V : Type)
  | one (v : V)
  | many (vs : List V)
deriving DecidableEq, Repr

def SplitItem.values : SplitItem V → List V
  | .one v => [v]
  | .many vs => vs

/-- All underlying mapper values of a split, in order. -/
def splitValues (items : List (SplitItem V)) : List V :=
  items.flatMap SplitItem.values

/-- Realize a split as the reducer's input, applying the combiner `c`
to each batch. -/
def toDeliveries (c : List V → A) (items : List (SplitItem V)) : List (Delivery V A) :=
  items.map fun
    | .one v => .raw v
    | .many vs => .agg (c vs)

/-! ## Temperature pipeline (`temperature_analysis_job.py`) -/

/-- The composite key emitted by the temperature mapper
(`json.dumps(key, sort_keys=True)` in the source; modelled
structurally). -/
structure TempKey where
  climate_zone : String
  analysis_type : String
  season : String
  month : ℤ
deriving DecidableEq, Repr

/-- The per-record value of the temperature mapper (the emitted `date`
field is never read downstream and is omitted). -/
structure TempVal where
  temp_max : ℚ
  temp_min : ℚ
  temp_mean : ℚ
  temp_range : ℚ
  country : Option String
deriving DecidableEq, Repr

/-- `mapper_extract_temperature_data`: validates
`all([climate_zone, date, temp_max is not None, temp_min is not None])`,
derives `temp_mean = (max+min)/2` when absent, extracts the month
(dropping the record when the date does not parse), and drops the
record when any used numeric field fails coercion (the Python
`float()` call raises into the catch-all handler). -/
def mapper_extract_temperature_data (analysis_type : String) (r : RawRecord) :
    Option (TempKey × TempVal) :=
  if strTruthy r.climate_zone = true ∧ strTruthy r.date = true
      ∧ r.temperature_2m_max ≠ .absent ∧ r.temperature_2m_min ≠ .absent then
    match r.temperature_2m_max, r.temperature_2m_min with
    | .val tmax, .val tmin =>
      let tmean? : Option ℚ :=
        match r.temperature_2m_mean with
        | .absent => some ((tmax + tmin) / 2)
        | .val q => some q
        | .malformed => none
      match tmean?, monthOfDate? (r.date.getD "") with
      | some tmean, some month =>
        let season := getSeason month
        some
          ({ climate_zone := r.climate_zone.getD ""
             analysis_type := analysis_type
             season := if analysis_type = "seasonal" then season.str else "all"
             month := if analysis_type = "monthly" then month else 0 },
           { temp_max := tmax, temp_min := tmin, temp_mean := tmean
             temp_range := tmax - tmin, country := r.country })
      | _, _ => none
    | _, _ => none
  else none

/-- The combiner's partial aggregate (`partial_stats` in the source). -/
structure TempAgg where
  temp_max_values : List ℚ
  temp_min_values : List ℚ
  temp_mean_values : List ℚ
  temp_range_values : List ℚ
  countries : List (Option String)
  record_count : ℕ
deriving DecidableEq, Repr

/-- `combiner_aggregate_partial` of the source (renamed): collects the
batch's values into lists, its countries into a set, and its size. -/
def combiner_aggregate_temp (vs : List TempVal) : TempAgg where
  temp_max_values := vs.map (·.temp_max)
  temp_min_values := vs.map (·.temp_min)
  temp_mean_values := vs.map (·.temp_mean)
  temp_range_values := vs.map (·.temp_range)
  countries := vs.foldl (fun l v => insertUniq l v.country) []
  record_count := vs.length

def tempInit : TempAgg := ⟨[], [], [], [], [], 0⟩

/-- One step of the reducer's accumulation loop, branching on
`is_partial` exactly as the source does. -/
def tempStep (st : TempAgg) (d : Delivery TempVal TempAgg) : TempAgg :=
  match d with
  | .raw v =>
    { temp_max_values := st.temp_max_values ++ [v.temp_max]
      temp_min_values := st.temp_min_values ++ [v.temp_min]
      temp_mean_values := st.temp_mean_values ++ [v.temp_mean]
      temp_range_values := st.temp_range_values ++ [v.temp_range]
      countries := insertUniq st.countries v.country
      record_count := st.record_count + 1 }
  | .agg p =>
    { temp_max_values := st.temp_max_values ++ p.temp_max_values
      temp_min_values := st.temp_min_values ++ p.temp_min_values
      temp_mean_values := st.temp_mean_values ++ p.temp_mean_values
      temp_range_values := st.temp_range_values ++ p.temp_range_values
      countries := unionUniq st.countries p.countries
      record_count := st.record_count + p.record_count }

def tempState (ds : List (Delivery TempVal TempAgg)) : TempAgg :=
  ds.foldl tempStep tempInit

/-- The emitted temperature statistics object. -/
structure TempStats where
  climate_zone : String
  analysis_type : String
  season : String
  month : ℤ
  record_count : ℕ
  countries : List (Option String)
  mean_temperature : ℚ
  max_temperature_overall : ℚ
  min_temperature_overall : ℚ
  avg_daily_max : ℚ
  avg_daily_min : ℚ
  avg_daily_range : ℚ
  temperature_variability : ℚ
  q1_temp : ℚ
  median_temp : ℚ
  q3_temp : ℚ
  extreme_temp_range : ℚ
  comfortable_days : ℕ
  comfort_percentage : ℚ
  hot_days : ℕ
  cold_days : ℕ
deriving DecidableEq, Repr

/-- `reducer_calculate_statistics`: folds raw values and combiner
partials, suppresses the key when no observations were accumulated, and
otherwise emits the statistics object. -/
def reducer_calculate_statistics (key : TempKey)
    (ds : List (Delivery TempVal TempAgg)) : Option TempStats :=
  let st := tempState ds
  if st.temp_mean_values.length < 1 then none
  else
    let n := st.temp_mean_values.length
    let sorted := sortQ st.temp_mean_values
    let comfortable := st.temp_mean_values.countP fun t => decide (18 ≤ t ∧ t ≤ 26)
    some
      { climate_zone := key.climate_zone
        analysis_type := key.analysis_type
        season := key.season
        month := key.month
        record_count := st.record_count
        countries := st.countries
        mean_temperature := round2 (listMean st.temp_mean_values)
        max_temperature_overall := round2 (listMax st.temp_max_values)
        min_temperature_overall := round2 (listMin st.temp_min_values)
        avg_daily_max := round2 (listMean st.temp_max_values)
        avg_daily_min := round2 (listMean st.temp_min_values)
        avg_daily_range := round2 (listMean st.temp_range_values)
        temperature_variability :=
          round2 (if 1 < n then stdevQ st.temp_mean_values else 0)
        q1_temp := round2 (sorted.getD (n / 4) 0)
        median_temp := round2 (sorted.getD (n / 2) 0)
        q3_temp := round2 (sorted.getD (3 * n / 4) 0)
        extreme_temp_range :=
          round2 (listMax st.temp_max_values - listMin st.temp_min_values)
        comfortable_days := comfortable
        comfort_percentage := round2 ((comfortable : ℚ) / (n : ℚ) * 100)
        hot_days := st.temp_mean_values.countP fun t => decide (30 < t)
        cold_days := st.temp_mean_values.countP fun t => decide (t < 10) }

/-! ## Precipitation pipeline (`precipitation_analysis_job.py`) -/

/-- The per-record value of the precipitation mapper (the emitted
`date` and `location_key` fields are never read downstream and are
omitted). -/
structure PrecipVal where
  precipitation : ℚ
  year : ℤ
  month : ℤ
  season : Season
  is_rainy : Bool
  climate_zone : Option String
deriving DecidableEq, Repr

/-- `mapper_extract_precipitation_data`: validates
`all([country, date, precipitation is not None])`, then coerces
precipitation with `float(precipitation) if precipitation else 0.0`
under a handler that turns a failing coercion into `0.0` (the record is
kept), drops the record when the date does not split into exactly three
integer-parsable parts, and flags rainy days by
`precip_value >= min_precipitation`. -/
def mapper_extract_precipitation_data (min_precipitation : ℚ) (r : RawRecord) :
    Option (String × PrecipVal) :=
  if strTruthy r.country = true ∧ strTruthy r.date = true
      ∧ r.precipitation_sum ≠ .absent then
    let p : ℚ :=
      match r.precipitation_sum with
      | .val q => q
      | _ => 0
    match yearMonthOfDate? (r.date.getD "") with
    | some (y, m) =>
      some (r.country.getD "",
        { precipitation := p, year := y, month := m, season := getSeason m
          is_rainy := decide (min_precipitation ≤ p), climate_zone := r.climate_zone })
    | none => none
  else none

/-- One entry of the combiner's per-season/month/year sub-statistics. -/
structure SubStat where
  total_precip : ℚ
  avg_precip : ℚ
  days : ℕ
deriving DecidableEq, Repr

/-- The combiner's partial aggregate (`partial_result` in the source;
the `is_partial` marker is the `Delivery.agg` constructor here). -/
structure PrecipAgg where
  total_precipitation : ℚ
  precipitation_values : List ℚ
  rainy_days : ℕ
  total_days : ℕ
  seasonal_stats : List (Season × SubStat)
  monthly_stats : List (ℤ × SubStat)
  yearly_stats : List (ℤ × SubStat)
  climate_zones : List (Option String)
deriving DecidableEq, Repr

/-- `defaultdict(list)` accumulation: append `q` to the entry of `k`,
keeping the dict's insertion order. -/
def groupAppend [DecidableEq K] (m : List (K × List ℚ)) (k : K) (q : ℚ) :
    List (K × List ℚ) :=
  match m with
  | [] => [(k, [q])]
  | (k', l) :: rest =>
    if k' = k then (k', l ++ [q]) :: rest else (k', l) :: groupAppend rest k q

/-- The `seasonal_stats`-shaped summary of one grouped value list. -/
def subStatOf (l : List ℚ) : SubStat :=
  { total_precip := l.sum, avg_precip := listMean l, days := l.length }

/-- `combiner_aggregate_precipitation`. -/
def combiner_aggregate_precipitation (vs : List PrecipVal) : PrecipAgg :=
  let pvals := vs.map (·.precipitation)
  { total_precipitation := pvals.sum
    precipitation_values := pvals
    rainy_days := vs.countP (·.is_rainy)
    total_days := vs.length
    seasonal_stats :=
      (vs.foldl (fun m v => groupAppend m v.season v.precipitation) []).map
        fun e => (e.1, subStatOf e.2)
    monthly_stats :=
      (vs.foldl (fun m v => groupAppend m v.month v.precipitation) []).map
        fun e => (e.1, subStatOf e.2)
    yearly_stats :=
      (vs.foldl (fun m v => groupAppend m v.year v.precipitation) []).map
        fun e => (e.1, subStatOf e.2)
    climate_zones := vs.foldl (fun l v => insertUniq l v.climate_zone) [] }

/-- The reducer's running accumulators: for each season/month/year key a
list of delivered totals and a list of delivered day counts
(`all_seasonal_stats[season]['total_precip']` / `['days']`). -/
structure PrecipState where
  all_precipitation : List ℚ
  total_rainy_days : ℕ
  total_days : ℕ
  seasonal : List (Season × (List ℚ × List ℕ))
  monthly : List (ℤ × (List ℚ × List ℕ))
  yearly : List (ℤ × (List ℚ × List ℕ))
  climate_zones : List (Option String)
deriving DecidableEq, Repr

/-- Append one `(total, days)` delivery to a keyed accumulator pair,
keeping insertion order. -/
def statePush [DecidableEq K] (m : List (K × (List ℚ × List ℕ))) (k : K)
    (q : ℚ) (d : ℕ) : List (K × (List ℚ × List ℕ)) :=
  match m with
  | [] => [(k, ([q], [d]))]
  | (k', p) :: rest =>
    if k' = k then (k', (p.1 ++ [q], p.2 ++ [d])) :: rest
    else (k', p) :: statePush rest k q d

def precipInit : PrecipState := ⟨[], 0, 0, [], [], [], []⟩

/-- One step of the precipitation reducer's accumulation loop. -/
def precipStep (st : PrecipState) (d : Delivery PrecipVal PrecipAgg) : PrecipState :=
  match d with
  | .raw v =>
    { all_precipitation := st.all_precipitation ++ [v.precipitation]
      total_rainy_days := st.total_rainy_days + (if v.is_rainy then 1 else 0)
      total_days := st.total_days + 1
      seasonal := statePush st.seasonal v.season v.precipitation 1
      monthly := statePush st.monthly v.month v.precipitation 1
      yearly := statePush st.yearly v.year v.precipitation 1
      climate_zones := insertUniq st.climate_zones v.climate_zone }
  | .agg a =>
    { all_precipitation := st.all_precipitation ++ a.precipitation_values
      total_rainy_days := st.total_rainy_days + a.rainy_days
      total_days := st.total_days + a.total_days
      seasonal := a.seasonal_stats.foldl
        (fun m e => statePush m e.1 e.2.total_precip e.2.days) st.seasonal
      monthly := a.monthly_stats.foldl
        (fun m e => statePush m e.1 e.2.total_precip e.2.days) st.monthly
      yearly := a.yearly_stats.foldl
        (fun m e => statePush m e.1 e.2.total_precip e.2.days) st.yearly
      climate_zones := unionUniq st.climate_zones a.climate_zones }

def precipState (ds : List (Delivery PrecipVal PrecipAgg)) : PrecipState :=
  ds.foldl precipStep precipInit

/-- One consolidated seasonal/monthly/yearly entry of the final output:
note `avg_precipitation` is the mean of the per-delivery totals. -/
structure SubFinal where
  total_precipitation : ℚ
  avg_precipitation : ℚ
  total_days : ℕ
  avg_daily_precip : ℚ
deriving DecidableEq, Repr

def subFinalOf (p : List ℚ × List ℕ) : SubFinal :=
  { total_precipitation := p.1.sum
    avg_precipitation := listMean p.1
    total_days := p.2.sum
    avg_daily_precip := p.1.sum / (p.2.sum : ℚ) }

/-- `if avg_precip > 5 ... elif > 2 ... elif > 0.5 ... else arido`. -/
def humidityClassOf (avg : ℚ) : String :=
  if 5 < avg then "muy_humedo"
  else if 2 < avg then "humedo"
  else if 1 / 2 < avg then "moderado"
  else "arido"

/-- The emitted precipitation statistics object. -/
structure PrecipStats where
  country : String
  climate_zones : List (Option String)
  total_days_analyzed : ℕ
  total_precipitation_mm : ℚ
  average_daily_precipitation : ℚ
  median_daily_precipitation : ℚ
  max_daily_precipitation : ℚ
  humidity_classification : String
  total_rainy_days : ℕ
  total_dry_days : ℕ
  rainy_days_percentage : ℚ
  avg_precip_on_rainy_days : ℚ
  seasonal_analysis : List (Season × SubFinal)
  monthly_analysis : List (ℤ × SubFinal)
  yearly_analysis : List (ℤ × SubFinal)
deriving DecidableEq, Repr

/-- `reducer_calculate_precipitation_stats`: folds raw values and
combiner partials, suppresses the key when `all_precipitation` stayed
empty, and otherwise emits the summary. -/
def reducer_calculate_precipitation_stats (country : String)
    (ds : List (Delivery PrecipVal PrecipAgg)) : Option PrecipStats :=
  let st := precipState ds
  if st.all_precipitation.isEmpty then none
  else
    let total := st.all_precipitation.sum
    let avg := listMean st.all_precipitation
    some
      { country := country
        climate_zones := st.climate_zones
        total_days_analyzed := st.total_days
        total_precipitation_mm := round2 total
        average_daily_precipitation := round2 avg
        median_daily_precipitation := round2 (medianQ st.all_precipitation)
        max_daily_precipitation := round2 (listMax st.all_precipitation)
        humidity_classification := humidityClassOf avg
        total_rainy_days := st.total_rainy_days
        total_dry_days := st.total_days - st.total_rainy_days
        rainy_days_percentage :=
          round2 (if 0 < st.total_days then
            (st.total_rainy_days : ℚ) / (st.total_days : ℚ) * 100 else 0)
        avg_precip_on_rainy_days :=
          round2 (if 0 < st.total_rainy_days then
            total / (st.total_rainy_days : ℚ) else 0)
        seasonal_analysis :=
          (st.seasonal.filter fun e => !e.2.1.isEmpty).map fun e => (e.1, subFinalOf e.2)
        monthly_analysis :=
          (st.monthly.filter fun e => !e.2.1.isEmpty).map fun e => (e.1, subFinalOf e.2)
        yearly_analysis :=
          (st.yearly.filter fun e => !e.2.1.isEmpty).map fun e => (e.1, subFinalOf e.2) }

/-! ## Extreme-weather pipeline (`extreme_weather_job.py`) -/

/-- The event types the mapper can emit. -/
inductive EventType
  | extreme_heat | extreme_cold | extreme_precipitation | extreme_wind
  | drought_day | extreme_humidity | normal_day
deriving DecidableEq, Repr

/-- Event severities (`noSeverity` is the `'none'` of `normal_day`). -/
inductive Severity
  | high | medium | low | noSeverity
deriving DecidableEq, Repr

/-- One emitted extreme-weather event.  Of the `base_event` fields only
`country` is ever read downstream (by the reducer's raw branch); the
others are omitted.  `value` is the triggering magnitude (`None` for
`normal_day`). -/
structure ExtremeEvent where
  country : String
  event_type : EventType
  severity : Severity
  value : Option ℚ
deriving DecidableEq, Repr

/-- Python truthiness guard `x and x > c` on an optional float. -/
def pyTruthyGT (x : Option ℚ) (c : ℚ) : Prop :=
  match x with
  | some q => q ≠ 0 ∧ c < q
  | none => False

/-- `x and x < c`. -/
def pyTruthyLT (x : Option ℚ) (c : ℚ) : Prop :=
  match x with
  | some q => q ≠ 0 ∧ q < c
  | none => False

instance (x : Option ℚ) (c : ℚ) : Decidable (pyTruthyGT x c) := by
  unfold pyTruthyGT; cases x <;> infer_instance

instance (x : Option ℚ) (c : ℚ) : Decidable (pyTruthyLT x c) := by
  unfold pyTruthyLT; cases x <;> infer_instance

/-- The detection block of `mapper_detect_extreme_conditions` (source
lines 101-180), applied to the already-coerced values: each condition
is evaluated independently and contributes its event in source order;
the final `normal_day` check repeats only the heat, cold, precipitation
and wind conditions (with Python truthiness on the temperatures). -/
def detectEvents (precipThreshold windThreshold : ℚ) (country : String)
    (tmax tmin : Option ℚ) (precip wind : ℚ) (humidity : Option ℚ) :
    List ExtremeEvent :=
  (match tmax with
   | some q => if 40 < q then
       [⟨country, .extreme_heat, if 45 < q then .high else .medium, some q⟩]
     else []
   | none => []) ++
  (match tmin with
   | some q => if q < 0 then
       [⟨country, .extreme_cold, if q < -10 then .high else .medium, some q⟩]
     else []
   | none => []) ++
  (if precipThreshold ≤ precip then
     [⟨country, .extreme_precipitation, if 100 < precip then .high else .medium,
       some precip⟩]
   else []) ++
  (if windThreshold ≤ wind then
     [⟨country, .extreme_wind, if 50 < wind then .high else .medium, some wind⟩]
   else []) ++
  (if precip = 0 then [⟨country, .drought_day, .low, some precip⟩] else []) ++
  (match humidity with
   | some q => if 95 < q then [⟨country, .extreme_humidity, .medium, some q⟩] else []
   | none => []) ++
  (if ¬(pyTruthyGT tmax 40 ∨ pyTruthyLT tmin 0
        ∨ precipThreshold ≤ precip ∨ windThreshold ≤ wind) then
     [⟨country, .normal_day, .noSeverity, none⟩]
   else [])

/-- `float(x) if x is not None else None` under the mapper's
try/except: `none` aborts the whole record. -/
def coerceOpt : NumField → Option (Option ℚ)
  | .absent => some none
  | .malformed => none
  | .val q => some (some q)

/-- `mapper_detect_extreme_conditions`: validates
`all([location_key, climate_zone, country, date])`, coerces the six
numeric fields (any failure drops the record; absent precipitation and
windspeed default to `0.0`), and emits all matching events under the
composite key `f"{location_key}_{climate_zone}"`. -/
def mapper_detect_extreme_conditions (precipThreshold windThreshold : ℚ)
    (r : RawRecord) : Option (String × List ExtremeEvent) :=
  if strTruthy r.location_key = true ∧ strTruthy r.climate_zone = true
      ∧ strTruthy r.country = true ∧ strTruthy r.date = true then
    match coerceOpt r.temperature_2m_max, coerceOpt r.temperature_2m_min,
        coerceOpt r.temperature_2m_mean, coerceOpt r.precipitation_sum,
        coerceOpt r.windspeed_10m_max, coerceOpt r.humidity_2m_max with
    | some tmax, some tmin, some _tmean, some precip?, some wind?, some hum =>
      some (r.location_key.getD "" ++ "_" ++ r.climate_zone.getD "",
        detectEvents precipThreshold windThreshold (r.country.getD "")
          tmax tmin (precip?.getD 0) (wind?.getD 0) hum)
    | _, _, _, _, _, _ => none
  else none

/-- Add `n` to the count of `k` in a dict modelled as an association
list in insertion order. -/
def bumpCount [DecidableEq K] (m : List (K × ℕ)) (k : K) (n : ℕ) : List (K × ℕ) :=
  match m with
  | [] => [(k, n)]
  | (k', c) :: rest =>
    if k' = k then (k', c + n) :: rest else (k', c) :: bumpCount rest k n

/-- Extend the value list of `k` by `qs`, keeping insertion order. -/
def pushValues [DecidableEq K] (m : List (K × List ℚ)) (k : K) (qs : List ℚ) :
    List (K × List ℚ) :=
  match m with
  | [] => [(k, qs)]
  | (k', l) :: rest =>
    if k' = k then (k', l ++ qs) :: rest else (k', l) :: pushValues rest k qs

/-- The combiner's partial aggregate (`partial_result` in the source;
note it carries no `country` field).  The severity dict key
`f"{event_type}_{severity}"` is modelled structurally as the pair: no
event-type name is a prefix of another, so the reducer's
`startswith(event_type)` lookup coincides with equality on the first
component, and `split('_')[-1]` with the second. -/
structure ExtremeAgg where
  event_counts : List (EventType × ℕ)
  severity_counts : List ((EventType × Severity) × ℕ)
  extreme_values : List (EventType × List ℚ)
  normal_days : ℕ
  total_days : ℕ
deriving DecidableEq, Repr

def extremeAggInit : ExtremeAgg := ⟨[], [], [], 0, 0⟩

/-- Folding one event into the combiner's accumulators. -/
def extremeFoldEvent (st : ExtremeAgg) (e : ExtremeEvent) : ExtremeAgg :=
  let st := { st with total_days := st.total_days + 1 }
  if e.event_type = .normal_day then { st with normal_days := st.normal_days + 1 }
  else
    { st with
      event_counts := bumpCount st.event_counts e.event_type 1
      severity_counts := bumpCount st.severity_counts (e.event_type, e.severity) 1
      extreme_values :=
        match e.value with
        | some q => pushValues st.extreme_values e.event_type [q]
        | none => st.extreme_values }

/-- `combiner_aggregate_extreme_events`. -/
def combiner_aggregate_extreme_events (evs : List ExtremeEvent) : ExtremeAgg :=
  evs.foldl extremeFoldEvent extremeAggInit

/-- The reducer's running state: the same accumulators plus the
`country` variable, which is written only by the raw-event branch. -/
structure ExtremeState where
  event_counts : List (EventType × ℕ)
  severity_counts : List ((EventType × Severity) × ℕ)
  extreme_values : List (EventType × List ℚ)
  normal_days : ℕ
  total_days : ℕ
  country : Option String
deriving DecidableEq, Repr

def extremeInit : ExtremeState := ⟨[], [], [], 0, 0, none⟩

/-- One step of the extreme-weather reducer's accumulation loop. -/
def extremeStep (st : ExtremeState) (d : Delivery ExtremeEvent ExtremeAgg) :
    ExtremeState :=
  match d with
  | .raw e =>
    let st := { st with total_days := st.total_days + 1, country := some e.country }
    if e.event_type = .normal_day then
      { st with normal_days := st.normal_days + 1 }
    else
      { st with
        event_counts := bumpCount st.event_counts e.event_type 1
        severity_counts := bumpCount st.severity_counts (e.event_type, e.severity) 1
        extreme_values :=
          match e.value with
          | some q => pushValues st.extreme_values e.event_type [q]
          | none => st.extreme_values }
  | .agg a =>
    { event_counts := a.event_counts.foldl (fun m p => bumpCount m p.1 p.2) st.event_counts
      severity_counts :=
        a.severity_counts.foldl (fun m p => bumpCount m p.1 p.2) st.severity_counts
      extreme_values :=
        a.extreme_values.foldl (fun m p => pushValues m p.1 p.2) st.extreme_values
      normal_days := st.normal_days + a.normal_days
      total_days := st.total_days + a.total_days
      country := st.country }

def extremeState (ds : List (Delivery ExtremeEvent ExtremeAgg)) : ExtremeState :=
  ds.foldl extremeStep extremeInit

/-- `event_weights` (with the dict's default `1.0`). -/
def eventWeight : EventType → ℚ
  | .extreme_heat => 2
  | .extreme_cold => 3 / 2
  | .extreme_precipitation => 5 / 2
  | .extreme_wind => 2
  | .extreme_humidity => 1
  | .drought_day => 1 / 10
  | .normal_day => 1

/-- `severity_multipliers` (with the dict's default `1.0`). -/
def severityMultiplier : Severity → ℚ
  | .high => 3
  | .medium => 2
  | .low => 1
  | .noSeverity => 1

/-- `_calculate_risk_index`: for each counted event type, one term per
matching severity entry.  The source computes a per-severity
`severity_factor = severity_count / total_days * 100` but never uses
it: each term multiplies the event type's own frequency
`count / total_days * 100` instead. -/
def calcRiskIndex (event_counts : List (EventType × ℕ))
    (severity_counts : List ((EventType × Severity) × ℕ)) (total_days : ℕ) : ℚ :=
  round2 <| (event_counts.map fun ec =>
    ((severity_counts.filter fun sc => decide (sc.1.1 = ec.1)).map fun sc =>
      eventWeight ec.1 * ((ec.2 : ℚ) / (total_days : ℚ) * 100)
        * severityMultiplier sc.1.2 * (1 / 100)).sum).sum

/-- Risk classification thresholds of the reducer. -/
def riskLevelOf (score : ℚ) : String :=
  if 7 < score then "muy_alto"
  else if 5 < score then "alto"
  else if 3 < score then "medio"
  else if 1 < score then "bajo"
  else "muy_bajo"

/-- `_identify_primary_threats`: stable sort by count descending
(Python `sorted(..., reverse=True)`), top 3, of nonzero count.  The
human-readable description strings are omitted. -/
def identifyPrimaryThreats (event_counts : List (EventType × ℕ)) :
    List (EventType × ℕ) :=
  ((event_counts.mergeSort fun a b => decide (b.2 ≤ a.2)).take 3).filter
    fun p => decide (0 < p.2)

/-- Count lookup `event_counts['...']` guarded by `'...' in event_counts`. -/
def countOf (m : List (EventType × ℕ)) (et : EventType) : ℕ :=
  ((m.find? fun p => decide (p.1 = et)).map (·.2)).getD 0

/-- `_generate_recommendations` (exact source strings). -/
def generateRecommendations (event_counts : List (EventType × ℕ))
    (risk_level : String) : List String :=
  (if 10 < countOf event_counts .extreme_heat then
    ["Implementar sistemas de alerta temprana para olas de calor",
     "Desarrollar infraestructura de refrigeración en espacios públicos"]
   else []) ++
  (if 5 < countOf event_counts .extreme_precipitation then
    ["Mejorar sistemas de drenaje y control de inundaciones",
     "Implementar alertas de precipitación extrema"]
   else []) ++
  (if 5 < countOf event_counts .extreme_wind then
    ["Reforzar infraestructura crítica contra vientos fuertes",
     "Desarrollar protocolos de evacuación por vientos extremos"]
   else []) ++
  (if risk_level = "alto" ∨ risk_level = "muy_alto" then
    ["Desarrollar plan integral de adaptación climática",
     "Implementar sistema de monitoreo climático continuo"]
   else [])

/-- Python `composite_key.split('_', 1)`: split at the first
underscore; `none` when there is none (the source's unpacking then
raises and the reducer emits an ERROR line instead of statistics). -/
def breakAtUnderscore : List Char → Option (List Char × List Char)
  | [] => none
  | c :: rest =>
    if c = '_' then some ([], rest)
    else (breakAtUnderscore rest).map fun p => (c :: p.1, p.2)

def splitCompositeKey (s : String) : Option (String × String) :=
  (breakAtUnderscore s.data).map fun p => (String.mk p.1, String.mk p.2)

/-- The emitted extreme-weather summary (flattening the nested JSON
objects; the threat description strings are omitted). -/
structure ExtremeStats where
  location_key : String
  climate_zone : String
  country : Option String
  total_days_analyzed : ℕ
  normal_days : ℕ
  extreme_days : ℕ
  extreme_percentage : ℚ
  extreme_events_summary : List (EventType × ℕ)
  severity_breakdown : List ((EventType × Severity) × ℕ)
  maximum_recorded : List (EventType × ℚ)
  average_when_extreme : List (EventType × ℚ)
  overall_risk_score : ℚ
  risk_level : String
  primary_threats : List (EventType × ℕ)
  recommendations : List String
deriving DecidableEq, Repr

/-- `reducer_analyze_extreme_patterns`: splits the composite key, folds
raw events and combiner partials (capturing `country` only from raw
events), and emits the summary; it has no empty-accumulator guard. -/
def reducer_analyze_extreme_patterns (composite_key : String)
    (ds : List (Delivery ExtremeEvent ExtremeAgg)) : Option ExtremeStats :=
  match splitCompositeKey composite_key with
  | none => none
  | some (location_key, climate_zone) =>
    let st := extremeState ds
    let total_extreme := (st.event_counts.map (·.2)).sum
    let score := calcRiskIndex st.event_counts st.severity_counts st.total_days
    let level := riskLevelOf score
    let nonEmptyVals := st.extreme_values.filter fun p => !p.2.isEmpty
    some
      { location_key := location_key
        climate_zone := climate_zone
        country := st.country
        total_days_analyzed := st.total_days
        normal_days := st.normal_days
        extreme_days := total_extreme
        extreme_percentage :=
          round2 (if 0 < st.total_days then
            (total_extreme : ℚ) / (st.total_days : ℚ) * 100 else 0)
        extreme_events_summary := st.event_counts
        severity_breakdown := st.severity_counts
        maximum_recorded := nonEmptyVals.map fun p => (p.1, listMax p.2)
        average_when_extreme := nonEmptyVals.map fun p => (p.1, round2 (listMean p.2))
        overall_risk_score := score
        risk_level := level
        primary_threats := identifyPrimaryThreats st.event_counts
        recommendations := generateRecommendations st.event_counts level }

/-! ## Derived definitions used by the claims -/

/-- Whether a delivery is a combiner partial. -/
def Delivery.isAgg : Delivery V A → Bool
  | .raw _ => false
  | .agg _ => true

/-- The distinct keys of the emitted pairs, in first-occurrence order. -/
def keysOf [DecidableEq K] (pairs : List (K × V)) : List K :=
  (pairs.map Prod.fst).dedup

/-- All values emitted under key `k`, in emission order. -/
def valuesFor [DecidableEq K] (pairs : List (K × V)) (k : K) : List V :=
  (pairs.filter fun p => decide (p.1 = k)).map Prod.snd

/-- Whether the mapper's event list contains an event of type `t`. -/
def hasType (evs : List ExtremeEvent) (t : EventType) : Bool :=
  evs.any fun e => decide (e.event_type = t)

/-- The heat-event guard `temp_max is not None and temp_max > 40`
without Python truthiness. -/
def optGT (x : Option ℚ) (c : ℚ) : Bool :=
  match x with
  | some q => decide (c < q)
  | none => false

def optLT (x : Option ℚ) (c : ℚ) : Bool :=
  match x with
  | some q => decide (q < c)
  | none => false

/-- The field is present and coerces (`float()` succeeds). -/
def isVal : NumField → Bool
  | .val _ => true
  | _ => false

/-- The field, if present, coerces. -/
def notMalformed : NumField → Bool
  | .malformed => false
  | _ => true

/-- The field is present (`x is not None`). -/
def isPresent : NumField → Bool
  | .absent => false
  | _ => true

/-- What the temperature mapper actually requires: truthy
`climate_zone` and `date`, both temperature bounds present and
coercible, a coercible (or absent) `temperature_2m_mean`, and a month
extractable from the date.  `location_key` and `country` are not
checked. -/
def tempAccepts (r : RawRecord) : Bool :=
  strTruthy r.climate_zone && strTruthy r.date
    && isVal r.temperature_2m_max && isVal r.temperature_2m_min
    && notMalformed r.temperature_2m_mean
    && (monthOfDate? (r.date.getD "")).isSome

/-- What the precipitation mapper actually requires: truthy `country`
and `date`, `precipitation_sum` present (an unparsable one is kept as
`0.0`), and a three-part date with integer year and month.
`location_key`, `climate_zone` and the temperatures are not checked. -/
def precipAccepts (r : RawRecord) : Bool :=
  strTruthy r.country && strTruthy r.date && isPresent r.precipitation_sum
    && (yearMonthOfDate? (r.date.getD "")).isSome

/-- What the extreme-weather mapper actually requires: the four truthy
string fields and all six numeric coercions succeeding.  Temperature
bounds may be absent. -/
def extremeAccepts (r : RawRecord) : Bool :=
  strTruthy r.location_key && strTruthy r.climate_zone && strTruthy r.country
    && strTruthy r.date
    && notMalformed r.temperature_2m_max && notMalformed r.temperature_2m_min
    && notMalformed r.temperature_2m_mean && notMalformed r.precipitation_sum
    && notMalformed r.windspeed_10m_max && notMalformed r.humidity_2m_max

/-- The validity rule as the specification states it (§3): present
(truthy) `location_key`, `climate_zone`, `country`, `date`, and not
both temperature bounds missing. -/
def specValidRecord (r : RawRecord) : Bool :=
  strTruthy r.location_key && strTruthy r.climate_zone && strTruthy r.country
    && strTruthy r.date
    && (isPresent r.temperature_2m_max || isPresent r.temperature_2m_min)

/-- The risk-score formula as the specification states it (§4.4), for
comparison with `calcRiskIndex`: for each event type with nonzero count
and each severity recorded for that type,
`weight(type) × (severity count / total_days × 100) × multiplier × 0.01`
— i.e. each severity contributes with *its own* count's share of the
days. -/
def riskScoreSpec (event_counts : List (EventType × ℕ))
    (severity_counts : List ((EventType × Severity) × ℕ)) (total_days : ℕ) : ℚ :=
  ((event_counts.filter fun ec => decide (ec.2 ≠ 0)).map fun ec =>
    ((severity_counts.filter fun sc => decide (sc.1.1 = ec.1)).map fun sc =>
      eventWeight ec.1 * ((sc.2 : ℚ) / (total_days : ℚ) * 100)
        * severityMultiplier sc.1.2 * (1 / 100)).sum).sum

/-- The temperature pipeline end to end: the emitted `record_count`
summed over all emitted GroupKeys, for an arbitrary per-key split of
each key's value stream between raw values and combiner batches. -/
def tempPipelineSum (a : String) (records : List RawRecord)
    (splits : TempKey → List (SplitItem TempVal)) : ℕ :=
  ((keysOf (records.filterMap (mapper_extract_temperature_data a))).map fun k =>
    match reducer_calculate_statistics k
        (toDeliveries combiner_aggregate_temp (splits k)) with
    | some st => st.record_count
    | none => 0).sum

/-- The precipitation pipeline end to end: emitted `total_days_analyzed`
summed over all emitted GroupKeys. -/
def precipPipelineSum (minp : ℚ) (records : List RawRecord)
    (splits : String → List (SplitItem PrecipVal)) : ℕ :=
  ((keysOf (records.filterMap (mapper_extract_precipitation_data minp))).map fun c =>
    match reducer_calculate_precipitation_stats c
        (toDeliveries combiner_aggregate_precipitation (splits c)) with
    | some st => st.total_days_analyzed
    | none => 0).sum

/-- All `(composite_key, event)` pairs the extreme-weather mapper emits
(a record may emit several). -/
def extremePairs (pt wt : ℚ) (records : List RawRecord) :
    List (String × ExtremeEvent) :=
  records.flatMap fun r =>
    match mapper_detect_extreme_conditions pt wt r with
    | some (k, evs) => evs.map fun e => (k, e)
    | none => []

/-- The extreme-weather pipeline end to end: emitted
`total_days_analyzed` summed over all emitted GroupKeys. -/
def extremePipelineSum (pt wt : ℚ) (records : List RawRecord)
    (splits : String → List (SplitItem ExtremeEvent)) : ℕ :=
  ((keysOf (extremePairs pt wt records)).map fun k =>
    match reducer_analyze_extreme_patterns k
        (toDeliveries combiner_aggregate_extreme_events (splits k)) with
    | some st => st.total_days_analyzed
    | none => 0).sum


/-! ## Infrastructure lemmas -/

/-- `sqrtQ 4 = 2`, the only square-root evaluation the scenarios need. -/
lemma sqrtQ_four : sqrtQ 4 = 2 := by
  rw [sqrtQ]
  norm_num [Rat.num_ofNat, Rat.den_ofNat]


lemma splitValues_nil : splitValues ([] : List (SplitItem V)) = [] := rfl

lemma splitValues_cons (it : SplitItem V) (items : List (SplitItem V)) :
    splitValues (it :: items) = it.values ++ splitValues items := by
  simp [splitValues]

lemma toDeliveries_nil (c : List V → A) : toDeliveries c [] = [] := rfl

lemma toDeliveries_cons (c : List V → A) (it : SplitItem V)
    (items : List (SplitItem V)) :
    toDeliveries c (it :: items)
      = (match it with
         | .one v => Delivery.raw v
         | .many vs => Delivery.agg (c vs)) :: toDeliveries c items := rfl

/-- The record count accumulated by the temperature reducer equals the
number of underlying mapper values, however the stream was split
between raw values and combiner batches. -/
lemma tempFold_record_count (items : List (SplitItem TempVal)) :
    ∀ st : TempAgg,
      ((toDeliveries combiner_aggregate_temp items).foldl tempStep st).record_count
        = st.record_count + (splitValues items).length := by
  induction items with
  | nil => intro st; simp [toDeliveries, splitValues]
  | cons it rest ih =>
    intro st
    cases it with
    | one v =>
      rw [toDeliveries_cons]
      simp [List.foldl_cons, ih, splitValues_cons, SplitItem.values,
        List.length_append, tempStep]
      omega
    | many vs =>
      rw [toDeliveries_cons]
      simp [List.foldl_cons, ih, splitValues_cons, SplitItem.values,
        List.length_append, tempStep, combiner_aggregate_temp, List.length_map]
      omega

/-- The accumulated `temp_mean_values` list is the concatenation of the
per-day means, in stream order, however the stream was split. -/
lemma tempFold_mean_values (items : List (SplitItem TempVal)) :
    ∀ st : TempAgg,
      ((toDeliveries combiner_aggregate_temp items).foldl tempStep st).temp_mean_values
        = st.temp_mean_values ++ (splitValues items).map (·.temp_mean) := by
  induction items with
  | nil => intro st; simp [toDeliveries, splitValues]
  | cons it rest ih =>
    intro st
    cases it with
    | one v =>
      rw [toDeliveries_cons]
      simp [List.foldl_cons, ih, splitValues_cons, SplitItem.values, tempStep]
    | many vs =>
      rw [toDeliveries_cons]
      simp [List.foldl_cons, ih, splitValues_cons, SplitItem.values, tempStep,
        combiner_aggregate_temp]

lemma tempState_record_count (items : List (SplitItem TempVal)) :
    (tempState (toDeliveries combiner_aggregate_temp items)).record_count
      = (splitValues items).length := by
  rw [tempState, tempFold_record_count]; simp [tempInit]

lemma tempState_mean_values (items : List (SplitItem TempVal)) :
    (tempState (toDeliveries combiner_aggregate_temp items)).temp_mean_values
      = (splitValues items).map (·.temp_mean) := by
  rw [tempState, tempFold_mean_values]; simp [tempInit]

/-- The day count accumulated by the precipitation reducer equals the
number of underlying mapper values, however the stream was split. -/
lemma precipFold_total_days (items : List (SplitItem PrecipVal)) :
    ∀ st : PrecipState,
      ((toDeliveries combiner_aggregate_precipitation items).foldl precipStep st).total_days
        = st.total_days + (splitValues items).length := by
  induction items with
  | nil => intro st; simp [toDeliveries, splitValues]
  | cons it rest ih =>
    intro st
    cases it with
    | one v =>
      rw [toDeliveries_cons]
      simp [List.foldl_cons, ih, splitValues_cons, SplitItem.values,
        List.length_append, precipStep]
      omega
    | many vs =>
      rw [toDeliveries_cons]
      simp [List.foldl_cons, ih, splitValues_cons, SplitItem.values,
        List.length_append, precipStep, combiner_aggregate_precipitation,
        List.length_map]
      omega

/-- The accumulated `all_precipitation` list is the concatenation of
the per-day precipitation values, in stream order. -/
lemma precipFold_all_precipitation (items : List (SplitItem PrecipVal)) :
    ∀ st : PrecipState,
      ((toDeliveries combiner_aggregate_precipitation items).foldl precipStep st).all_precipitation
        = st.all_precipitation ++ (splitValues items).map (·.precipitation) := by
  induction items with
  | nil => intro st; simp [toDeliveries, splitValues]
  | cons it rest ih =>
    intro st
    cases it with
    | one v =>
      rw [toDeliveries_cons]
      simp [List.foldl_cons, ih, splitValues_cons, SplitItem.values, precipStep]
    | many vs =>
      rw [toDeliveries_cons]
      simp [List.foldl_cons, ih, splitValues_cons, SplitItem.values, precipStep,
        combiner_aggregate_precipitation]

lemma precipState_total_days (items : List (SplitItem PrecipVal)) :
    (precipState (toDeliveries combiner_aggregate_precipitation items)).total_days
      = (splitValues items).length := by
  rw [precipState, precipFold_total_days]; simp [precipInit]

lemma precipState_all_precipitation (items : List (SplitItem PrecipVal)) :
    (precipState (toDeliveries combiner_aggregate_precipitation items)).all_precipitation
      = (splitValues items).map (·.precipitation) := by
  rw [precipState, precipFold_all_precipitation]; simp [precipInit]

/-- Folding only combiner partials never writes the reducer's `country`
variable. -/
lemma extremeFold_country_of_aggs (ds : List (Delivery ExtremeEvent ExtremeAgg)) :
    ∀ st : ExtremeState, (∀ d ∈ ds, d.isAgg = true) →
      (ds.foldl extremeStep st).country = st.country := by
  induction ds with
  | nil => intro st _; rfl
  | cons d rest ih =>
    intro st h
    cases d with
    | raw e => exact absurd (h _ (List.mem_cons_self _ _)) (by simp [Delivery.isAgg])
    | agg a =>
      simp only [List.foldl_cons]
      rw [ih _ fun d hd => h d (List.mem_cons_of_mem _ hd)]
      rfl

/-! ### Grouping by key (the shuffle the execution runtime performs) -/

lemma length_filter_add (p : α → Bool) (l : List α) :
    (l.filter p).length + (l.filter fun a => !(p a)).length = l.length := by
  induction l with
  | nil => rfl
  | cons a t ih =>
    by_cases h : p a = true <;> simp [List.filter_cons, h] <;> omega

/-- Summing the sizes of the fibers of a nodup covering key list gives
the total number of pairs. -/
lemma sum_fiber_lengths [DecidableEq K] :
    ∀ (ks : List K) (l : List (K × V)), ks.Nodup → (∀ p ∈ l, p.1 ∈ ks) →
      ((ks.map fun k => (l.filter fun p => decide (p.1 = k)).length).sum) = l.length := by
  intro ks
  induction ks with
  | nil =>
    intro l _ hcov
    cases l with
    | nil => rfl
    | cons p t => exact absurd (hcov p (List.mem_cons_self _ _)) (List.not_mem_nil _)
  | cons k ks ih =>
    intro l hnd hcov
    have hk : k ∉ ks := (List.nodup_cons.mp hnd).1
    have hnd' : ks.Nodup := (List.nodup_cons.mp hnd).2
    set l' := l.filter fun p => !(decide (p.1 = k)) with hl'
    have hfib : ∀ j ∈ ks,
        (l.filter fun p => decide (p.1 = j)).length
          = (l'.filter fun p => decide (p.1 = j)).length := by
      intro j hj
      have hjk : j ≠ k := fun h => hk (h ▸ hj)
      rw [hl', List.filter_filter]
      congr 1
      apply List.filter_congr
      intro p _
      by_cases h : p.1 = j
      · simp [h, hjk]
      · simp [h]
    have hcov' : ∀ p ∈ l', p.1 ∈ ks := by
      intro p hp
      have hmem := List.mem_of_mem_filter hp
      have hne : ¬(p.1 = k) := by
        have := List.of_mem_filter hp
        simpa using this
      rcases List.mem_cons.mp (hcov p hmem) with h | h
      · exact absurd h hne
      · exact h
    have hmap : (ks.map fun j => (l.filter fun p => decide (p.1 = j)).length)
        = ks.map fun j => (l'.filter fun p => decide (p.1 = j)).length := by
      apply List.map_congr_left
      intro j hj
      exact hfib j hj
    calc ((k :: ks).map fun j => (l.filter fun p => decide (p.1 = j)).length).sum
        = (l.filter fun p => decide (p.1 = k)).length
          + (ks.map fun j => (l.filter fun p => decide (p.1 = j)).length).sum := by
          simp
      _ = (l.filter fun p => decide (p.1 = k)).length + l'.length := by
          rw [hmap, ih l' hnd' hcov']
      _ = l.length := by rw [hl']; exact length_filter_add _ l

lemma keysOf_nodup [DecidableEq K] (pairs : List (K × V)) : (keysOf pairs).Nodup :=
  List.nodup_dedup _

lemma mem_keysOf [DecidableEq K] (pairs : List (K × V)) (p : K × V)
    (hp : p ∈ pairs) : p.1 ∈ keysOf pairs := by
  rw [keysOf, List.mem_dedup]
  exact List.mem_map_of_mem _ hp

lemma valuesFor_ne_nil [DecidableEq K] (pairs : List (K × V)) (k : K)
    (hk : k ∈ keysOf pairs) : valuesFor pairs k ≠ [] := by
  rw [keysOf, List.mem_dedup, List.mem_map] at hk
  rcases hk with ⟨p, hp, hpk⟩
  have hmem : p ∈ pairs.filter fun q => decide (q.1 = k) :=
    List.mem_filter.mpr ⟨hp, by simp [hpk]⟩
  exact List.ne_nil_of_mem (List.mem_map_of_mem Prod.snd hmem)

lemma valuesFor_length [DecidableEq K] (pairs : List (K × V)) (k : K) :
    (valuesFor pairs k).length = (pairs.filter fun p => decide (p.1 = k)).length := by
  rw [valuesFor, List.length_map]

/-! ## Claim C10 -/

/-- C10: in the extreme-weather pipeline, when every value delivered to
the reducer for a key is a combiner-produced partial aggregate, the
emitted summary's `country` field is null: the combiner's partial
result carries no country field (`ExtremeAgg` has none) and the reducer
captures `country` only from raw events. -/
theorem C10_combiner_only_country_null
    (key : String) (batches : List (List ExtremeEvent)) (st : ExtremeStats)
    (h : reducer_analyze_extreme_patterns key
      (toDeliveries combiner_aggregate_extreme_events (batches.map SplitItem.many))
      = some st) :
    st.country = none := by
  have hagg : ∀ d ∈ toDeliveries combiner_aggregate_extreme_events
      (batches.map SplitItem.many), d.isAgg = true := by
    intro d hd
    rw [toDeliveries, List.map_map] at hd
    rcases List.mem_map.mp hd with ⟨b, _, rfl⟩
    rfl
  have hctry : (extremeState (toDeliveries combiner_aggregate_extreme_events
      (batches.map SplitItem.many))).country = none :=
    extremeFold_country_of_aggs _ extremeInit hagg
  rw [reducer_analyze_extreme_patterns] at h
  cases hsplit : splitCompositeKey key with
  | none => rw [hsplit] at h; exact absurd h (by simp)
  | some p =>
    rw [hsplit] at h
    cases h
    simpa using hctry

/-- Witness for C10 at a concrete combiner-only input. -/
theorem C10_combiner_only_country_null_witness :
    Option.map ExtremeStats.country
      (reducer_analyze_extreme_patterns "a_b"
        (toDeliveries combiner_aggregate_extreme_events
          ([[⟨"c", .extreme_heat, .high, some 46⟩]].map SplitItem.many)))
      = some none := by
  cases hres : reducer_analyze_extreme_patterns "a_b"
      (toDeliveries combiner_aggregate_extreme_events
        ([[⟨"c", .extreme_heat, .high, some 46⟩]].map SplitItem.many)) with
  | none =>
    rw [reducer_analyze_extreme_patterns] at hres
    rw [show splitCompositeKey "a_b" = some ("a", "b") from by decide] at hres
    exact absurd hres (by simp)
  | some st =>
    rw [Option.map_some']
    rw [C10_combiner_only_country_null "a_b"
      [[⟨"c", .extreme_heat, .high, some 46⟩]] st hres]

/-! ## Claim C9 -/

/-- C9 (amended): the temperature and precipitation reducers suppress a
GroupKey whose accumulator carries zero observations after all merges
(they emit nothing); the extreme-weather reducer has no such guard (see
the counterexample). -/
theorem C9_empty_group_suppression
    (k : TempKey) (c : String) (itemsT : List (SplitItem TempVal))
    (itemsP : List (SplitItem PrecipVal)) :
    (splitValues itemsT = [] →
      reducer_calculate_statistics k (toDeliveries combiner_aggregate_temp itemsT)
        = none)
    ∧ (splitValues itemsP = [] →
      reducer_calculate_precipitation_stats c
        (toDeliveries combiner_aggregate_precipitation itemsP) = none) := by
  constructor
  · intro h
    rw [reducer_calculate_statistics]
    simp [tempState_mean_values, h]
  · intro h
    rw [reducer_calculate_precipitation_stats]
    simp [precipState_all_precipitation, h]

/-- C9 counterexample: the extreme-weather reducer, handed a group that
carries zero observations, still emits a summary (with
`total_days_analyzed = 0`) instead of suppressing the key. -/
theorem C9_extreme_emits_empty_group :
    (reducer_analyze_extreme_patterns "x_z"
      ([] : List (Delivery ExtremeEvent ExtremeAgg))).isSome = true
    ∧ Option.map ExtremeStats.total_days_analyzed
        (reducer_analyze_extreme_patterns "x_z"
          ([] : List (Delivery ExtremeEvent ExtremeAgg))) = some 0 := by
  rw [reducer_analyze_extreme_patterns,
    show splitCompositeKey "x_z" = some ("x", "z") from by decide]
  simp [extremeState, extremeInit]

/-- Witness for C9 at a concrete empty split (one empty combiner
batch). -/
theorem C9_empty_group_suppression_witness :
    reducer_calculate_statistics ⟨"z", "full", "all", 0⟩
        (toDeliveries combiner_aggregate_temp [SplitItem.many []]) = none
    ∧ reducer_calculate_precipitation_stats "Colombia"
        (toDeliveries combiner_aggregate_precipitation [SplitItem.many []]) = none :=
  ⟨(C9_empty_group_suppression ⟨"z", "full", "all", 0⟩ "Colombia"
      [SplitItem.many []] [SplitItem.many []]).1
    (by simp [splitValues, SplitItem.values]),
   (C9_empty_group_suppression ⟨"z", "full", "all", 0⟩ "Colombia"
      [SplitItem.many []] [SplitItem.many []]).2
    (by simp [splitValues, SplitItem.values])⟩

/-! ## Claim C3 -/

lemma pyTruthyGT_40_iff (x : Option ℚ) : pyTruthyGT x 40 ↔ optGT x 40 = true := by
  cases x with
  | none => simp [pyTruthyGT, optGT]
  | some q =>
    simp only [pyTruthyGT, optGT, decide_eq_true_eq]
    constructor
    · exact fun h => h.2
    · exact fun h => ⟨ne_of_gt (lt_trans (by norm_num) h), h⟩

lemma pyTruthyLT_0_iff (x : Option ℚ) : pyTruthyLT x 0 ↔ optLT x 0 = true := by
  cases x with
  | none => simp [pyTruthyLT, optLT]
  | some q =>
    simp only [pyTruthyLT, optLT, decide_eq_true_eq]
    constructor
    · exact fun h => h.2
    · exact fun h => ⟨ne_of_lt h, h⟩

lemma hasType_nil (t : EventType) : hasType [] t = false := rfl

lemma hasType_append (l1 l2 : List ExtremeEvent) (t : EventType) :
    hasType (l1 ++ l2) t = (hasType l1 t || hasType l2 t) := by
  simp [hasType]

lemma hasType_ite_singleton (c : Prop) [Decidable c] (e : ExtremeEvent)
    (t : EventType) :
    hasType (if c then [e] else []) t = (decide c && decide (e.event_type = t)) := by
  split_ifs with h <;> simp [hasType, h]

lemma hasType_detect_heat (pt wt : ℚ) (c : String) (tmax tmin : Option ℚ)
    (p w : ℚ) (hum : Option ℚ) :
    hasType (detectEvents pt wt c tmax tmin p w hum) .extreme_heat = optGT tmax 40 := by
  cases tmax <;> cases tmin <;> cases hum <;>
    simp [detectEvents, optGT, hasType_append, hasType_ite_singleton, hasType_nil]

lemma hasType_detect_cold (pt wt : ℚ) (c : String) (tmax tmin : Option ℚ)
    (p w : ℚ) (hum : Option ℚ) :
    hasType (detectEvents pt wt c tmax tmin p w hum) .extreme_cold = optLT tmin 0 := by
  cases tmax <;> cases tmin <;> cases hum <;>
    simp [detectEvents, optLT, hasType_append, hasType_ite_singleton, hasType_nil]

lemma hasType_detect_precip (pt wt : ℚ) (c : String) (tmax tmin : Option ℚ)
    (p w : ℚ) (hum : Option ℚ) :
    hasType (detectEvents pt wt c tmax tmin p w hum) .extreme_precipitation
      = decide (pt ≤ p) := by
  cases tmax <;> cases tmin <;> cases hum <;>
    simp [detectEvents, hasType_append, hasType_ite_singleton, hasType_nil]

lemma hasType_detect_wind (pt wt : ℚ) (c : String) (tmax tmin : Option ℚ)
    (p w : ℚ) (hum : Option ℚ) :
    hasType (detectEvents pt wt c tmax tmin p w hum) .extreme_wind
      = decide (wt ≤ w) := by
  cases tmax <;> cases tmin <;> cases hum <;>
    simp [detectEvents, hasType_append, hasType_ite_singleton, hasType_nil]

lemma hasType_detect_normal (pt wt : ℚ) (c : String) (tmax tmin : Option ℚ)
    (p w : ℚ) (hum : Option ℚ) :
    hasType (detectEvents pt wt c tmax tmin p w hum) .normal_day
      = decide (¬(pyTruthyGT tmax 40 ∨ pyTruthyLT tmin 0 ∨ pt ≤ p ∨ wt ≤ w)) := by
  cases tmax <;> cases tmin <;> cases hum <;>
    simp [detectEvents, hasType_append, hasType_ite_singleton, hasType_nil]

/-- C3 (amended): a `normal_day` event is emitted exactly when the
record triggered none of `extreme_heat`, `extreme_cold`,
`extreme_precipitation`, `extreme_wind` — the `extreme_humidity` (and
`drought_day`) conditions are *not* consulted by the source's
normal-day check, so a record can emit both `extreme_humidity` and
`normal_day` (see the counterexample). -/
theorem C3_normal_day_iff_no_high_medium_but_humidity
    (pt wt : ℚ) (r : RawRecord) (key : String) (evs : List ExtremeEvent)
    (h : mapper_detect_extreme_conditions pt wt r = some (key, evs)) :
    hasType evs .normal_day = true ↔
      ¬(hasType evs .extreme_heat = true ∨ hasType evs .extreme_cold = true
        ∨ hasType evs .extreme_precipitation = true
        ∨ hasType evs .extreme_wind = true) := by
  rw [mapper_detect_extreme_conditions] at h
  split at h
  · split at h
    · cases h
      rw [hasType_detect_heat, hasType_detect_cold, hasType_detect_precip,
        hasType_detect_wind, hasType_detect_normal]
      simp only [decide_eq_true_eq, pyTruthyGT_40_iff, pyTruthyLT_0_iff]
    · cases h
  · cases h

/-- C3 counterexample: a record whose only matching condition is
`extreme_humidity` (humidity 96, all high/medium thresholds clear)
emits *both* an `extreme_humidity` event and a `normal_day` event, so
"normal_day exactly when none of heat/cold/precipitation/wind/humidity
matched" is false on the humidity side. -/
theorem C3_counterexample :
    mapper_detect_extreme_conditions 50 25
      ⟨some "x", some "z", some "c", some "2023-01-05",
       .val 20, .val 5, .absent, .val 10, .absent, .val 96⟩
      = some ("x" ++ "_" ++ "z",
        [⟨"c", .extreme_humidity, .medium, some 96⟩,
         ⟨"c", .normal_day, .noSeverity, none⟩])
    ∧ hasType [⟨"c", .extreme_humidity, .medium, some 96⟩,
        ⟨"c", .normal_day, .noSeverity, none⟩] .normal_day = true
    ∧ hasType [⟨"c", .extreme_humidity, .medium, some 96⟩,
        ⟨"c", .normal_day, .noSeverity, none⟩] .extreme_humidity = true := by
  refine ⟨?_, by decide, by decide⟩
  simp only [mapper_detect_extreme_conditions, strTruthy, coerceOpt, detectEvents,
    pyTruthyGT, pyTruthyLT]
  norm_num
  decide

/-- Witness for C3 at a concrete record (a drought-only day, which
emits `drought_day` and `normal_day`). -/
theorem C3_normal_day_iff_witness :
    hasType [⟨"c", .drought_day, .low, some 0⟩,
        ⟨"c", .normal_day, .noSeverity, none⟩] .normal_day = true ↔
      ¬(hasType [⟨"c", .drought_day, .low, some 0⟩,
          ⟨"c", .normal_day, .noSeverity, none⟩] .extreme_heat = true
        ∨ hasType [⟨"c", .drought_day, .low, some 0⟩,
            ⟨"c", .normal_day, .noSeverity, none⟩] .extreme_cold = true
        ∨ hasType [⟨"c", .drought_day, .low, some 0⟩,
            ⟨"c", .normal_day, .noSeverity, none⟩] .extreme_precipitation = true
        ∨ hasType [⟨"c", .drought_day, .low, some 0⟩,
            ⟨"c", .normal_day, .noSeverity, none⟩] .extreme_wind = true) :=
  C3_normal_day_iff_no_high_medium_but_humidity 50 25
    ⟨some "l", some "z", some "c", some "2023-02-01",
     .val 20, .val 5, .absent, .val 0, .absent, .absent⟩
    ("l" ++ "_" ++ "z")
    [⟨"c", .drought_day, .low, some 0⟩, ⟨"c", .normal_day, .noSeverity, none⟩]
    (by
      simp only [mapper_detect_extreme_conditions, strTruthy, coerceOpt,
        detectEvents, pyTruthyGT, pyTruthyLT]
      norm_num
      decide)

/-! ## Claim C5 -/

lemma coerceOpt_isSome (f : NumField) : (coerceOpt f).isSome = notMalformed f := by
  cases f <;> rfl

lemma temp_mapper_isSome (a : String) (r : RawRecord) :
    (mapper_extract_temperature_data a r).isSome = tempAccepts r := by
  rw [mapper_extract_temperature_data, tempAccepts]
  by_cases hC : strTruthy r.climate_zone = true ∧ strTruthy r.date = true
      ∧ r.temperature_2m_max ≠ NumField.absent
      ∧ r.temperature_2m_min ≠ NumField.absent
  · rw [if_pos hC]
    obtain ⟨h1, h2, _, _⟩ := hC
    cases htmax : r.temperature_2m_max <;>
      cases htmin : r.temperature_2m_min <;>
        cases htmean : r.temperature_2m_mean <;>
          cases hmo : monthOfDate? (r.date.getD "") <;>
            simp_all [isVal, notMalformed]
  · rw [if_neg hC]
    cases hcz : strTruthy r.climate_zone <;>
      cases hda : strTruthy r.date <;>
        cases htmax : r.temperature_2m_max <;>
          cases htmin : r.temperature_2m_min <;>
            simp_all [isVal, notMalformed]

lemma precip_mapper_isSome (minp : ℚ) (r : RawRecord) :
    (mapper_extract_precipitation_data minp r).isSome = precipAccepts r := by
  rw [mapper_extract_precipitation_data, precipAccepts]
  by_cases hC : strTruthy r.country = true ∧ strTruthy r.date = true
      ∧ r.precipitation_sum ≠ NumField.absent
  · rw [if_pos hC]
    obtain ⟨h1, h2, _⟩ := hC
    cases hps : r.precipitation_sum <;>
      cases hym : yearMonthOfDate? (r.date.getD "") <;>
        simp_all [isPresent]
  · rw [if_neg hC]
    cases hco : strTruthy r.country <;>
      cases hda : strTruthy r.date <;>
        cases hps : r.precipitation_sum <;>
          simp_all [isPresent]

lemma extreme_mapper_isSome (pt wt : ℚ) (r : RawRecord) :
    (mapper_detect_extreme_conditions pt wt r).isSome = extremeAccepts r := by
  rw [mapper_detect_extreme_conditions, extremeAccepts]
  by_cases hC : strTruthy r.location_key = true ∧ strTruthy r.climate_zone = true
      ∧ strTruthy r.country = true ∧ strTruthy r.date = true
  · rw [if_pos hC]
    obtain ⟨h1, h2, h3, h4⟩ := hC
    cases c1 : coerceOpt r.temperature_2m_max <;>
      cases c2 : coerceOpt r.temperature_2m_min <;>
        cases c3 : coerceOpt r.temperature_2m_mean <;>
          cases c4 : coerceOpt r.precipitation_sum <;>
            cases c5 : coerceOpt r.windspeed_10m_max <;>
              cases c6 : coerceOpt r.humidity_2m_max <;>
                simp_all [← coerceOpt_isSome]
  · rw [if_neg hC]
    cases hl : strTruthy r.location_key <;>
      cases hcz : strTruthy r.climate_zone <;>
        cases hco : strTruthy r.country <;>
          cases hda : strTruthy r.date <;>
            simp_all

/-- C5 (amended): each pipeline has its *own* validation, none of which
matches the spec's shared rule.  The temperature mapper requires
`climate_zone`, `date` (with a parsable month) and *both* temperature
bounds (but not `location_key`/`country`); the precipitation mapper
requires `country`, `date` (three integer-parsable parts) and a present
`precipitation_sum` (but no temperatures); the extreme-weather mapper
requires the four string fields and coercible numerics (but no
temperature bound at all). -/
theorem C5_per_pipeline_validation (a : String) (minp pt wt : ℚ) (r : RawRecord) :
    (mapper_extract_temperature_data a r).isSome = tempAccepts r
    ∧ (mapper_extract_precipitation_data minp r).isSome = precipAccepts r
    ∧ (mapper_detect_extreme_conditions pt wt r).isSome = extremeAccepts r :=
  ⟨temp_mapper_isSome a r, precip_mapper_isSome minp r,
   extreme_mapper_isSome pt wt r⟩

/-- C5 counterexample: a record with every spec-required field (only
`temperature_2m_min` is missing, so it does not lack *both* bounds) is
spec-valid, yet the temperature pipeline drops it. -/
theorem C5_counterexample :
    specValidRecord
        ⟨some "x", some "z", some "c", some "2020-01-01",
         .val 20, .absent, .absent, .val 5, .absent, .absent⟩ = true
    ∧ mapper_extract_temperature_data "full"
        ⟨some "x", some "z", some "c", some "2020-01-01",
         .val 20, .absent, .absent, .val 5, .absent, .absent⟩ = none := by
  exact ⟨by decide, by decide⟩

/-! ## Claim C6 -/

/-- C6 (amended): a record whose temperature field fails coercion is
dropped silently by the temperature mapper, and one whose
precipitation field fails coercion is dropped silently by the
extreme-weather mapper (no emission, no error); but the precipitation
mapper does *not* reject a record whose `precipitation_sum` fails to
parse — it substitutes `0.0` and keeps the record, accepting it
whenever its other validation passes. -/
theorem C6_coercion_failure_handling (a : String) (minp pt wt : ℚ)
    (r : RawRecord) :
    (r.temperature_2m_max = .malformed → mapper_extract_temperature_data a r = none)
    ∧ (r.precipitation_sum = .malformed →
        mapper_detect_extreme_conditions pt wt r = none)
    ∧ (∀ c v, r.precipitation_sum = .malformed →
        mapper_extract_precipitation_data minp r = some (c, v) →
        v.precipitation = 0)
    ∧ (r.precipitation_sum = .malformed →
        (mapper_extract_precipitation_data minp r).isSome
          = (strTruthy r.country && strTruthy r.date
              && (yearMonthOfDate? (r.date.getD "")).isSome)) := by
  refine ⟨?_, ?_, ?_, ?_⟩
  · intro h
    have h2 := temp_mapper_isSome a r
    cases ho : mapper_extract_temperature_data a r with
    | none => rfl
    | some p =>
      rw [ho] at h2
      simp [tempAccepts, h, isVal] at h2
  · intro h
    have h2 := extreme_mapper_isSome pt wt r
    cases ho : mapper_detect_extreme_conditions pt wt r with
    | none => rfl
    | some p =>
      rw [ho] at h2
      simp [extremeAccepts, h, notMalformed] at h2
  · intro c v h hm
    rw [mapper_extract_precipitation_data, h] at hm
    by_cases hC : strTruthy r.country = true ∧ strTruthy r.date = true
        ∧ NumField.malformed ≠ NumField.absent
    · rw [if_pos hC] at hm
      cases hym : yearMonthOfDate? (r.date.getD "") with
      | none =>
        simp only [hym] at hm
        simp at hm
      | some ym =>
        obtain ⟨y, m⟩ := ym
        simp only [hym] at hm
        simp only [Option.some.injEq, Prod.mk.injEq] at hm
        obtain ⟨-, hv⟩ := hm
        rw [← hv]
    · rw [if_neg hC] at hm
      exact Option.noConfusion hm
  · intro h
    rw [precip_mapper_isSome]
    simp [precipAccepts, h, isPresent]

/-- C6 counterexample: a record whose `precipitation_sum` is present
but unparsable is *kept* by the precipitation mapper (emitted with
precipitation `0.0`), not rejected as the claim states. -/
theorem C6_counterexample :
    mapper_extract_precipitation_data 1
      ⟨some "x", some "z", some "c", some "2020-01-01",
       .val 20, .val 5, .absent, .malformed, .absent, .absent⟩
      = some ("c", ⟨0, 2020, 1, .winter, false, some "z"⟩) := by
  have hym : yearMonthOfDate? "2020-01-01" = some (2020, 1) := by decide
  simp [mapper_extract_precipitation_data, strTruthy, hym, getSeason]

/-- Witness for C6 at a concrete record with malformed temperature and
precipitation fields. -/
theorem C6_coercion_failure_handling_witness :
    mapper_extract_temperature_data "full"
        ⟨some "x", some "z", some "c", some "2020-01-01",
         .malformed, .val 5, .absent, .malformed, .absent, .absent⟩ = none
    ∧ mapper_detect_extreme_conditions 50 25
        ⟨some "x", some "z", some "c", some "2020-01-01",
         .malformed, .val 5, .absent, .malformed, .absent, .absent⟩ = none
    ∧ (⟨0, 2020, 1, .winter, false, some "z"⟩ : PrecipVal).precipitation = 0 :=
  ⟨(C6_coercion_failure_handling "full" 1 50 25 _).1 rfl,
   (C6_coercion_failure_handling "full" 1 50 25 _).2.1 rfl,
   (C6_coercion_failure_handling "full" 1 50 25
      ⟨some "x", some "z", some "c", some "2020-01-01",
       .val 20, .val 5, .absent, .malformed, .absent, .absent⟩).2.2.1 "c"
     ⟨0, 2020, 1, .winter, false, some "z"⟩ rfl
     (by
       have hym : yearMonthOfDate? "2020-01-01" = some (2020, 1) := by decide
       simp [mapper_extract_precipitation_data, strTruthy, hym, getSeason])⟩

/-! ## Claim C2 -/

/-- C2: on a location with two heat events over two days, one high and
one medium, the source's `_calculate_risk_index` multiplies *the event
type's total* frequency into every severity term (its per-severity
`severity_factor` is computed but unused), yielding 10.0, while the
formula the claim states (each severity's own share) yields 5.0. -/
theorem C2_risk_index_uses_event_total_frequency :
    Option.map (fun st => (st.extreme_events_summary, st.severity_breakdown,
        st.total_days_analyzed, st.overall_risk_score))
      (reducer_analyze_extreme_patterns "x_z"
        [.raw ⟨"c", .extreme_heat, .high, some 46⟩,
         .raw ⟨"c", .extreme_heat, .medium, some 43⟩])
      = some ([(.extreme_heat, 2)],
          [((.extreme_heat, .high), 1), ((.extreme_heat, .medium), 1)], 2, 10)
    ∧ riskScoreSpec [(.extreme_heat, 2)]
        [((.extreme_heat, .high), 1), ((.extreme_heat, .medium), 1)] 2 = 5
    ∧ (10 : ℚ) ≠ 5 := by
  have hstate : extremeState
      [.raw ⟨"c", .extreme_heat, .high, some 46⟩,
       .raw ⟨"c", .extreme_heat, .medium, some 43⟩]
      = ⟨[(.extreme_heat, 2)],
         [((.extreme_heat, .high), 1), ((.extreme_heat, .medium), 1)],
         [(.extreme_heat, [46, 43])], 0, 2, some "c"⟩ := by
    simp [extremeState, extremeStep, bumpCount, pushValues, extremeInit]
  have hscore : calcRiskIndex [(.extreme_heat, 2)]
      [((.extreme_heat, .high), 1), ((.extreme_heat, .medium), 1)] 2 = 10 := by
    rw [calcRiskIndex]
    norm_num [eventWeight, severityMultiplier, round2, round_eq, Int.floor_eq_iff]
  refine ⟨?_, ?_, by norm_num⟩
  · rw [reducer_analyze_extreme_patterns,
      show splitCompositeKey "x_z" = some ("x", "z") from by decide]
    simp [hstate, hscore]
  · rw [riskScoreSpec]
    norm_num [eventWeight, severityMultiplier]

/-! ## Claim C1 -/

/-- C1: the merge stage is *not* partition-transparent.  For country
"Colombia" with two same-season records (precipitation 0.0 and 5.0,
rainy threshold 1.0), reducing the raw values directly gives seasonal
`avg_precipitation = 5/2`, while combining the two records into one
combiner batch first gives seasonal `avg_precipitation = 5` (the
reducer averages per-delivery *totals*), so the two FinalStatistics
differ. -/
theorem C1_combiner_changes_seasonal_avg :
    mapper_extract_precipitation_data 1
        ⟨some "l", some "z", some "Colombia", some "2020-01-01",
         .val 20, .val 5, .absent, .val 0, .absent, .absent⟩
      = some ("Colombia", ⟨0, 2020, 1, .winter, false, some "z"⟩)
    ∧ mapper_extract_precipitation_data 1
        ⟨some "l", some "z", some "Colombia", some "2020-01-02",
         .val 20, .val 5, .absent, .val 5, .absent, .absent⟩
      = some ("Colombia", ⟨5, 2020, 1, .winter, true, some "z"⟩)
    ∧ Option.map PrecipStats.seasonal_analysis
        (reducer_calculate_precipitation_stats "Colombia"
          (toDeliveries combiner_aggregate_precipitation
            [.one ⟨0, 2020, 1, .winter, false, some "z"⟩,
             .one ⟨5, 2020, 1, .winter, true, some "z"⟩]))
      = some [(Season.winter, ⟨5, 5 / 2, 2, 5 / 2⟩)]
    ∧ Option.map PrecipStats.seasonal_analysis
        (reducer_calculate_precipitation_stats "Colombia"
          (toDeliveries combiner_aggregate_precipitation
            [.many [⟨0, 2020, 1, .winter, false, some "z"⟩,
                    ⟨5, 2020, 1, .winter, true, some "z"⟩]]))
      = some [(Season.winter, ⟨5, 5, 2, 5 / 2⟩)]
    ∧ reducer_calculate_precipitation_stats "Colombia"
        (toDeliveries combiner_aggregate_precipitation
          [.one ⟨0, 2020, 1, .winter, false, some "z"⟩,
           .one ⟨5, 2020, 1, .winter, true, some "z"⟩])
      ≠ reducer_calculate_precipitation_stats "Colombia"
        (toDeliveries combiner_aggregate_precipitation
          [.many [⟨0, 2020, 1, .winter, false, some "z"⟩,
                  ⟨5, 2020, 1, .winter, true, some "z"⟩]]) := by
  have h1 : mapper_extract_precipitation_data 1
      ⟨some "l", some "z", some "Colombia", some "2020-01-01",
       .val 20, .val 5, .absent, .val 0, .absent, .absent⟩
      = some ("Colombia", ⟨0, 2020, 1, .winter, false, some "z"⟩) := by
    have hym : yearMonthOfDate? "2020-01-01" = some (2020, 1) := by decide
    simp [mapper_extract_precipitation_data, strTruthy, hym, getSeason]
  have h2 : mapper_extract_precipitation_data 1
      ⟨some "l", some "z", some "Colombia", some "2020-01-02",
       .val 20, .val 5, .absent, .val 5, .absent, .absent⟩
      = some ("Colombia", ⟨5, 2020, 1, .winter, true, some "z"⟩) := by
    have hym : yearMonthOfDate? "2020-01-02" = some (2020, 1) := by decide
    simp [mapper_extract_precipitation_data, strTruthy, hym, getSeason]
  have hsd : precipState (toDeliveries combiner_aggregate_precipitation
      [.one ⟨0, 2020, 1, .winter, false, some "z"⟩,
       .one ⟨5, 2020, 1, .winter, true, some "z"⟩])
      = ⟨[0, 5], 1, 2, [(.winter, ([0, 5], [1, 1]))], [(1, ([0, 5], [1, 1]))],
         [(2020, ([0, 5], [1, 1]))], [some "z"]⟩ := by
    simp [precipState, toDeliveries, precipStep, precipInit, statePush, insertUniq]
  have hsc : precipState (toDeliveries combiner_aggregate_precipitation
      [.many [⟨0, 2020, 1, .winter, false, some "z"⟩,
              ⟨5, 2020, 1, .winter, true, some "z"⟩]])
      = ⟨[0, 5], 1, 2, [(.winter, ([5], [2]))], [(1, ([5], [2]))],
         [(2020, ([5], [2]))], [some "z"]⟩ := by
    simp [precipState, toDeliveries, precipStep, precipInit, statePush, insertUniq,
      unionUniq, combiner_aggregate_precipitation, groupAppend, subStatOf, listMean]
  have h3 : Option.map PrecipStats.seasonal_analysis
      (reducer_calculate_precipitation_stats "Colombia"
        (toDeliveries combiner_aggregate_precipitation
          [.one ⟨0, 2020, 1, .winter, false, some "z"⟩,
           .one ⟨5, 2020, 1, .winter, true, some "z"⟩]))
      = some [(Season.winter, ⟨5, 5 / 2, 2, 5 / 2⟩)] := by
    rw [reducer_calculate_precipitation_stats, hsd]
    norm_num [subFinalOf, listMean]
  have h4 : Option.map PrecipStats.seasonal_analysis
      (reducer_calculate_precipitation_stats "Colombia"
        (toDeliveries combiner_aggregate_precipitation
          [.many [⟨0, 2020, 1, .winter, false, some "z"⟩,
                  ⟨5, 2020, 1, .winter, true, some "z"⟩]]))
      = some [(Season.winter, ⟨5, 5, 2, 5 / 2⟩)] := by
    rw [reducer_calculate_precipitation_stats, hsc]
    norm_num [subFinalOf, listMean]
  refine ⟨h1, h2, h3, h4, ?_⟩
  intro heq
  rw [heq, h4] at h3
  norm_num at h3

/-! ## Claim C4 -/

/-- C4 (amended): count conservation holds for the temperature and
precipitation pipelines — for any input and any partitioning of each
key's values between combiner batches and raw delivery, the emitted
per-key counts sum to the number of valid (mapped) records.  It fails
for the extreme-weather pipeline, whose `total_days_analyzed` counts
emitted events (see the counterexample). -/
theorem C4_count_conservation_temp_precip :
    (∀ (a : String) (records : List RawRecord)
        (splits : TempKey → List (SplitItem TempVal)),
      (∀ k ∈ keysOf (records.filterMap (mapper_extract_temperature_data a)),
        splitValues (splits k)
          = valuesFor (records.filterMap (mapper_extract_temperature_data a)) k) →
      tempPipelineSum a records splits
        = (records.filterMap (mapper_extract_temperature_data a)).length)
    ∧ (∀ (minp : ℚ) (records : List RawRecord)
        (splits : String → List (SplitItem PrecipVal)),
      (∀ c ∈ keysOf (records.filterMap (mapper_extract_precipitation_data minp)),
        splitValues (splits c)
          = valuesFor (records.filterMap (mapper_extract_precipitation_data minp)) c) →
      precipPipelineSum minp records splits
        = (records.filterMap (mapper_extract_precipitation_data minp)).length) := by
  constructor
  · intro a records splits hs
    set pairs := records.filterMap (mapper_extract_temperature_data a) with hp
    have hstep : ∀ k ∈ keysOf pairs,
        (match reducer_calculate_statistics k
            (toDeliveries combiner_aggregate_temp (splits k)) with
         | some st => st.record_count
         | none => 0)
        = (pairs.filter fun p => decide (p.1 = k)).length := by
      intro k hk
      have hv := hs k hk
      have hne : valuesFor pairs k ≠ [] := valuesFor_ne_nil pairs k hk
      have hlen : (splitValues (splits k)).length = (valuesFor pairs k).length := by
        rw [hv]
      have hpos : 0 < (splitValues (splits k)).length := by
        rw [hlen]
        exact List.length_pos.mpr hne
      have hcond : ¬((splitValues (splits k)).length < 1) := by omega
      simp only [reducer_calculate_statistics, tempState_mean_values,
        tempState_record_count, List.length_map, hcond, if_false]
      rw [hlen, valuesFor_length]
    rw [tempPipelineSum, ← hp, List.map_congr_left hstep]
    exact sum_fiber_lengths (keysOf pairs) pairs (keysOf_nodup pairs)
      fun p hp' => mem_keysOf pairs p hp'
  · intro minp records splits hs
    set pairs := records.filterMap (mapper_extract_precipitation_data minp) with hp
    have hstep : ∀ c ∈ keysOf pairs,
        (match reducer_calculate_precipitation_stats c
            (toDeliveries combiner_aggregate_precipitation (splits c)) with
         | some st => st.total_days_analyzed
         | none => 0)
        = (pairs.filter fun p => decide (p.1 = c)).length := by
      intro c hk
      have hv := hs c hk
      have hne : valuesFor pairs c ≠ [] := valuesFor_ne_nil pairs c hk
      have hlen : (splitValues (splits c)).length = (valuesFor pairs c).length := by
        rw [hv]
      have hpos : 0 < (splitValues (splits c)).length := by
        rw [hlen]
        exact List.length_pos.mpr hne
      have hcond : ((splitValues (splits c)).map (·.precipitation)).isEmpty = false := by
        cases hsv : splitValues (splits c) with
        | nil => rw [hsv] at hpos; exact absurd hpos (by simp)
        | cons x xs => rfl
      simp only [reducer_calculate_precipitation_stats,
        precipState_all_precipitation, precipState_total_days, hcond,
        Bool.false_eq_true, if_false]
      rw [hlen, valuesFor_length]
    rw [precipPipelineSum, ← hp, List.map_congr_left hstep]
    exact sum_fiber_lengths (keysOf pairs) pairs (keysOf_nodup pairs)
      fun p hp' => mem_keysOf pairs p hp'

/-- C4 counterexample: one valid record with `temperature_2m_max = 46`
and `precipitation_sum = 0` emits two events (`extreme_heat` and
`drought_day`), so the extreme-weather pipeline's summed
`total_days_analyzed` is 2 while the number of valid records is 1. -/
theorem C4_counterexample :
    extremePipelineSum 50 25
      [⟨some "loc", some "zone", some "c", some "2020-01-01",
        .val 46, .val 5, .absent, .val 0, .absent, .absent⟩]
      (fun _ => [.one ⟨"c", .extreme_heat, .high, some 46⟩,
                 .one ⟨"c", .drought_day, .low, some 0⟩])
      = 2
    ∧ ([⟨some "loc", some "zone", some "c", some "2020-01-01",
         .val 46, .val 5, .absent, .val 0, .absent, .absent⟩].filterMap
        (mapper_detect_extreme_conditions 50 25)).length = 1
    ∧ (2 : ℕ) ≠ 1 := by
  have hmap : mapper_detect_extreme_conditions 50 25
      ⟨some "loc", some "zone", some "c", some "2020-01-01",
       .val 46, .val 5, .absent, .val 0, .absent, .absent⟩
      = some ("loc" ++ "_" ++ "zone",
        [⟨"c", .extreme_heat, .high, some 46⟩,
         ⟨"c", .drought_day, .low, some 0⟩]) := by
    simp only [mapper_detect_extreme_conditions, strTruthy, coerceOpt,
      detectEvents, pyTruthyGT, pyTruthyLT]
    norm_num
    decide
  refine ⟨?_, ?_, by norm_num⟩
  · have hpairs : extremePairs 50 25
        [⟨some "loc", some "zone", some "c", some "2020-01-01",
          .val 46, .val 5, .absent, .val 0, .absent, .absent⟩]
        = [("loc" ++ "_" ++ "zone", ⟨"c", .extreme_heat, .high, some 46⟩),
           ("loc" ++ "_" ++ "zone", ⟨"c", .drought_day, .low, some 0⟩)] := by
      simp [extremePairs, hmap]
    have hstate : extremeState (toDeliveries combiner_aggregate_extreme_events
        [.one ⟨"c", .extreme_heat, .high, some 46⟩,
         .one ⟨"c", .drought_day, .low, some 0⟩])
        = ⟨[(.extreme_heat, 1), (.drought_day, 1)],
           [((.extreme_heat, .high), 1), ((.drought_day, .low), 1)],
           [(.extreme_heat, [46]), (.drought_day, [0])], 0, 2, some "c"⟩ := by
      simp [extremeState, toDeliveries, extremeStep, bumpCount, pushValues,
        extremeInit]
    rw [extremePipelineSum, hpairs]
    rw [show keysOf [("loc" ++ "_" ++ "zone",
        (⟨"c", .extreme_heat, .high, some 46⟩ : ExtremeEvent)),
        ("loc" ++ "_" ++ "zone", ⟨"c", .drought_day, .low, some 0⟩)]
      = ["loc" ++ "_" ++ "zone"] from by simp [keysOf]]
    rw [List.map_cons, List.map_nil, reducer_analyze_extreme_patterns,
      show splitCompositeKey ("loc" ++ "_" ++ "zone") = some ("loc", "zone")
        from by decide, hstate]
    rfl
  · simp [hmap]

/-- Witness for C4 at a concrete one-record input per pipeline, with
the whole key group sent through one combiner batch. -/
theorem C4_count_conservation_temp_precip_witness :
    tempPipelineSum "full"
      [⟨some "x", some "tropical_mountain", some "Colombia", some "2023-06-15",
        .val 25, .val 15, .val 20, .val 0, .absent, .absent⟩]
      (fun k => [SplitItem.many (valuesFor
        ([⟨some "x", some "tropical_mountain", some "Colombia", some "2023-06-15",
           .val 25, .val 15, .val 20, .val 0, .absent, .absent⟩].filterMap
          (mapper_extract_temperature_data "full")) k)])
      = ([⟨some "x", some "tropical_mountain", some "Colombia", some "2023-06-15",
           .val 25, .val 15, .val 20, .val 0, .absent, .absent⟩].filterMap
          (mapper_extract_temperature_data "full")).length
    ∧ precipPipelineSum 1
      [⟨some "l", some "z", some "Colombia", some "2020-01-01",
        .val 20, .val 5, .absent, .val 0, .absent, .absent⟩]
      (fun c => [SplitItem.many (valuesFor
         ([⟨some "l", some "z", some "Colombia", some "2020-01-01",
            .val 20, .val 5, .absent, .val 0, .absent, .absent⟩].filterMap
           (mapper_extract_precipitation_data 1)) c)])
      = ([⟨some "l", some "z", some "Colombia", some "2020-01-01",
           .val 20, .val 5, .absent, .val 0, .absent, .absent⟩].filterMap
          (mapper_extract_precipitation_data 1)).length :=
  ⟨C4_count_conservation_temp_precip.1 "full" _ _
     (fun k _ => by simp [splitValues, SplitItem.values]),
   C4_count_conservation_temp_precip.2 1 _ _
     (fun c _ => by simp [splitValues, SplitItem.values])⟩

/-! ## Claim C7 -/

lemma round2_zero : round2 0 = 0 := by
  rw [round2]
  norm_num

/-- C7: three valid records in zone "tropical_mountain" with daily mean
temperatures 20.0, 22.0, 24.0 yield `mean_temperature = 22`,
`temperature_variability = 2` (sample standard deviation) and
`comfortable_days = 3`; in general a day is counted comfortable exactly
when its mean is in `[18, 26]`, and the variability is reported as `0`
whenever there are fewer than 2 observations. -/
theorem C7_temperature_known_value :
    mapper_extract_temperature_data "full"
        ⟨some "x", some "tropical_mountain", some "Colombia", some "2023-06-15",
         .val 25, .val 15, .val 20, .val 0, .absent, .absent⟩
      = some (⟨"tropical_mountain", "full", "all", 0⟩,
          ⟨25, 15, 20, 10, some "Colombia"⟩)
    ∧ mapper_extract_temperature_data "full"
        ⟨some "x", some "tropical_mountain", some "Colombia", some "2023-06-16",
         .val 27, .val 17, .val 22, .val 0, .absent, .absent⟩
      = some (⟨"tropical_mountain", "full", "all", 0⟩,
          ⟨27, 17, 22, 10, some "Colombia"⟩)
    ∧ mapper_extract_temperature_data "full"
        ⟨some "x", some "tropical_mountain", some "Colombia", some "2023-06-17",
         .val 29, .val 19, .val 24, .val 0, .absent, .absent⟩
      = some (⟨"tropical_mountain", "full", "all", 0⟩,
          ⟨29, 19, 24, 10, some "Colombia"⟩)
    ∧ Option.map (fun st => (st.mean_temperature, st.temperature_variability,
          st.comfortable_days))
        (reducer_calculate_statistics ⟨"tropical_mountain", "full", "all", 0⟩
          (toDeliveries combiner_aggregate_temp
            [.one ⟨25, 15, 20, 10, some "Colombia"⟩,
             .one ⟨27, 17, 22, 10, some "Colombia"⟩,
             .one ⟨29, 19, 24, 10, some "Colombia"⟩]))
      = some (22, 2, 3)
    ∧ (∀ (items : List (SplitItem TempVal)) (k : TempKey) (st : TempStats),
        reducer_calculate_statistics k
            (toDeliveries combiner_aggregate_temp items) = some st →
        st.comfortable_days
          = ((splitValues items).map (·.temp_mean)).countP
              fun t => decide (18 ≤ t ∧ t ≤ 26))
    ∧ (∀ (items : List (SplitItem TempVal)) (k : TempKey) (st : TempStats),
        reducer_calculate_statistics k
            (toDeliveries combiner_aggregate_temp items) = some st →
        (splitValues items).length ≤ 1 → st.temperature_variability = 0) := by
  refine ⟨?_, ?_, ?_, ?_, ?_, ?_⟩
  · have hm : monthOfDate? "2023-06-15" = some 6 := by decide
    simp [mapper_extract_temperature_data, strTruthy, hm, getSeason]
    norm_num
  · have hm : monthOfDate? "2023-06-16" = some 6 := by decide
    simp [mapper_extract_temperature_data, strTruthy, hm, getSeason]
    norm_num
  · have hm : monthOfDate? "2023-06-17" = some 6 := by decide
    simp [mapper_extract_temperature_data, strTruthy, hm, getSeason]
    norm_num
  · have hstate : tempState (toDeliveries combiner_aggregate_temp
        [.one ⟨25, 15, 20, 10, some "Colombia"⟩,
         .one ⟨27, 17, 22, 10, some "Colombia"⟩,
         .one ⟨29, 19, 24, 10, some "Colombia"⟩])
        = ⟨[25, 27, 29], [15, 17, 19], [20, 22, 24], [10, 10, 10],
           [some "Colombia"], 3⟩ := by
      simp [tempState, toDeliveries, tempStep, tempInit, insertUniq]
    have hvar : sampleVar [20, 22, 24] = 4 := by
      norm_num [sampleVar, listMean]
    have hstdev : stdevQ [20, 22, 24] = 2 := by
      rw [stdevQ, hvar, sqrtQ_four]
    have hr22 : round2 (listMean [20, 22, 24]) = 22 := by
      rw [listMean, round2, round_eq]
      norm_num [Int.floor_eq_iff]
    have hr2 : round2 2 = 2 := by
      rw [round2, round_eq]
      norm_num [Int.floor_eq_iff]
    simp only [reducer_calculate_statistics, hstate]
    simp [hstdev, hr22, hr2, List.countP, List.countP.go]
    norm_num
  · intro items k st h
    rw [reducer_calculate_statistics] at h
    split at h
    · exact Option.noConfusion h
    · cases h
      simp only [tempState_mean_values]
  · intro items k st h hle
    rw [reducer_calculate_statistics] at h
    split at h
    · exact Option.noConfusion h
    · cases h
      have hn : ¬(1 < (tempState (toDeliveries combiner_aggregate_temp
          items)).temp_mean_values.length) := by
        rw [tempState_mean_values, List.length_map]
        omega
      simp only [hn, if_false]
      exact round2_zero

/-- Witness for C7's general clauses at a one-record group. -/
theorem C7_temperature_known_value_witness :
    Option.map TempStats.comfortable_days
      (reducer_calculate_statistics ⟨"tropical_mountain", "full", "all", 0⟩
        (toDeliveries combiner_aggregate_temp
          [.one ⟨25, 15, 20, 10, some "Colombia"⟩])) = some 1
    ∧ Option.map TempStats.temperature_variability
      (reducer_calculate_statistics ⟨"tropical_mountain", "full", "all", 0⟩
        (toDeliveries combiner_aggregate_temp
          [.one ⟨25, 15, 20, 10, some "Colombia"⟩])) = some 0 := by
  cases hres : reducer_calculate_statistics ⟨"tropical_mountain", "full", "all", 0⟩
      (toDeliveries combiner_aggregate_temp
        [.one ⟨25, 15, 20, 10, some "Colombia"⟩]) with
  | none =>
    rw [reducer_calculate_statistics] at hres
    simp [tempState, toDeliveries, tempStep, tempInit] at hres
  | some st =>
    have h1 := C7_temperature_known_value.2.2.2.2.1
      [.one ⟨25, 15, 20, 10, some "Colombia"⟩]
      ⟨"tropical_mountain", "full", "all", 0⟩ st hres
    have h2 := C7_temperature_known_value.2.2.2.2.2
      [.one ⟨25, 15, 20, 10, some "Colombia"⟩]
      ⟨"tropical_mountain", "full", "all", 0⟩ st hres
      (by simp [splitValues, SplitItem.values])
    constructor
    · rw [Option.map_some', h1]
      simp [splitValues, SplitItem.values, List.countP, List.countP.go]
      norm_num
    · rw [Option.map_some', h2]

/-! ## Claim C8 -/

/-- C8: country "Colombia" with daily precipitation `[0, 5, 0]` and
rainy threshold 1.0 yields total 5.0, average 1.67 (rounded), and
`rainy_days_percentage` 33.33; a day is rainy exactly when its
precipitation is `≥` the threshold, and the humidity classification is
by mean daily precipitation with strict thresholds 5 / 2 / 0.5. -/
theorem C8_precipitation_known_value :
    mapper_extract_precipitation_data 1
        ⟨some "l", some "z", some "Colombia", some "2023-01-01",
         .val 20, .val 5, .absent, .val 0, .absent, .absent⟩
      = some ("Colombia", ⟨0, 2023, 1, .winter, false, some "z"⟩)
    ∧ mapper_extract_precipitation_data 1
        ⟨some "l", some "z", some "Colombia", some "2023-01-02",
         .val 20, .val 5, .absent, .val 5, .absent, .absent⟩
      = some ("Colombia", ⟨5, 2023, 1, .winter, true, some "z"⟩)
    ∧ mapper_extract_precipitation_data 1
        ⟨some "l", some "z", some "Colombia", some "2023-01-03",
         .val 20, .val 5, .absent, .val 0, .absent, .absent⟩
      = some ("Colombia", ⟨0, 2023, 1, .winter, false, some "z"⟩)
    ∧ Option.map (fun st => (st.total_precipitation_mm,
          st.average_daily_precipitation, st.rainy_days_percentage,
          st.humidity_classification))
        (reducer_calculate_precipitation_stats "Colombia"
          (toDeliveries combiner_aggregate_precipitation
            [.one ⟨0, 2023, 1, .winter, false, some "z"⟩,
             .one ⟨5, 2023, 1, .winter, true, some "z"⟩,
             .one ⟨0, 2023, 1, .winter, false, some "z"⟩]))
      = some (5, 167 / 100, 3333 / 100, "moderado")
    ∧ (∀ (minp : ℚ) (r : RawRecord) (c : String) (v : PrecipVal),
        mapper_extract_precipitation_data minp r = some (c, v) →
        v.is_rainy = decide (minp ≤ v.precipitation))
    ∧ (∀ (items : List (SplitItem PrecipVal)) (c : String) (st : PrecipStats),
        reducer_calculate_precipitation_stats c
            (toDeliveries combiner_aggregate_precipitation items) = some st →
        st.humidity_classification
          = (if 5 < listMean ((splitValues items).map (·.precipitation)) then
              "muy_humedo"
            else if 2 < listMean ((splitValues items).map (·.precipitation)) then
              "humedo"
            else if 1 / 2 < listMean ((splitValues items).map (·.precipitation)) then
              "moderado"
            else "arido")) := by
  refine ⟨?_, ?_, ?_, ?_, ?_, ?_⟩
  · have hym : yearMonthOfDate? "2023-01-01" = some (2023, 1) := by decide
    simp [mapper_extract_precipitation_data, strTruthy, hym, getSeason]
  · have hym : yearMonthOfDate? "2023-01-02" = some (2023, 1) := by decide
    simp [mapper_extract_precipitation_data, strTruthy, hym, getSeason]
  · have hym : yearMonthOfDate? "2023-01-03" = some (2023, 1) := by decide
    simp [mapper_extract_precipitation_data, strTruthy, hym, getSeason]
  · have hstate : precipState (toDeliveries combiner_aggregate_precipitation
        [.one ⟨0, 2023, 1, .winter, false, some "z"⟩,
         .one ⟨5, 2023, 1, .winter, true, some "z"⟩,
         .one ⟨0, 2023, 1, .winter, false, some "z"⟩])
        = ⟨[0, 5, 0], 1, 3, [(.winter, ([0, 5, 0], [1, 1, 1]))],
           [(1, ([0, 5, 0], [1, 1, 1]))], [(2023, ([0, 5, 0], [1, 1, 1]))],
           [some "z"]⟩ := by
      simp [precipState, toDeliveries, precipStep, precipInit, statePush,
        insertUniq]
    have h5 : round2 (5 : ℚ) = 5 := by
      rw [round2, round_eq]
      norm_num [Int.floor_eq_iff]
    have havg : round2 (listMean [0, 5, 0]) = 167 / 100 := by
      rw [listMean, round2, round_eq]
      norm_num [Int.floor_eq_iff]
    have hpct : round2 ((100 : ℚ) / 3) = 3333 / 100 := by
      rw [round2, round_eq]
      norm_num [Int.floor_eq_iff]
    have hcls : humidityClassOf (listMean [0, 5, 0]) = "moderado" := by
      rw [humidityClassOf, listMean]
      norm_num
    simp only [reducer_calculate_precipitation_stats, hstate]
    simp [h5, havg, hpct, hcls]
    norm_num [havg, hpct]
  · intro minp r c v h
    rw [mapper_extract_precipitation_data] at h
    by_cases hC : strTruthy r.country = true ∧ strTruthy r.date = true
        ∧ r.precipitation_sum ≠ NumField.absent
    · rw [if_pos hC] at h
      cases hym : yearMonthOfDate? (r.date.getD "") with
      | none =>
        simp only [hym] at h
        simp at h
      | some ym =>
        obtain ⟨y, m⟩ := ym
        simp only [hym] at h
        simp only [Option.some.injEq, Prod.mk.injEq] at h
        obtain ⟨-, hv⟩ := h
        rw [← hv]
    · rw [if_neg hC] at h
      exact Option.noConfusion h
  · intro items c st h
    rw [reducer_calculate_precipitation_stats] at h
    split at h
    · exact Option.noConfusion h
    · cases h
      simp only [precipState_all_precipitation, humidityClassOf]

/-- Witness for C8's general clauses at concrete inputs. -/
theorem C8_precipitation_known_value_witness :
    (⟨5, 2023, 1, .winter, true, some "z"⟩ : PrecipVal).is_rainy
      = decide ((1 : ℚ) ≤ (⟨5, 2023, 1, .winter, true, some "z"⟩ : PrecipVal).precipitation)
    ∧ Option.map PrecipStats.humidity_classification
        (reducer_calculate_precipitation_stats "Colombia"
          (toDeliveries combiner_aggregate_precipitation
            [.one ⟨5, 2023, 1, .winter, true, some "z"⟩])) = some "humedo" := by
  constructor
  · exact C8_precipitation_known_value.2.2.2.2.1 1
      ⟨some "l", some "z", some "Colombia", some "2023-01-02",
       .val 20, .val 5, .absent, .val 5, .absent, .absent⟩
      "Colombia" ⟨5, 2023, 1, .winter, true, some "z"⟩
      C8_precipitation_known_value.2.1
  · cases hres : reducer_calculate_precipitation_stats "Colombia"
        (toDeliveries combiner_aggregate_precipitation
          [.one ⟨5, 2023, 1, .winter, true, some "z"⟩]) with
    | none =>
      rw [reducer_calculate_precipitation_stats] at hres
      simp [precipState, toDeliveries, precipStep, precipInit] at hres
    | some st =>
      have h := C8_precipitation_known_value.2.2.2.2.2
        [.one ⟨5, 2023, 1, .winter, true, some "z"⟩] "Colombia" st hres
      rw [Option.map_some', h]
      simp [splitValues, SplitItem.values, listMean]
      norm_num
